import Mathlib

/-!
Verification of the ECPy elliptic-curve library (src/ecpy) against its
natural-language specification.

This file shallowly embeds the relevant Python code into Lean:

* Python arbitrary-precision integers become `Int` (`ℤ`); Python's `%` on a
  positive modulus agrees with `Int.emod`, which is nonnegative there.
* byte strings (`bytes` / `bytearray`) become `List ℕ`, with every element a
  byte value;
* `int.to_bytes` / `int.from_bytes` become `toBytesBE`/`toBytesLE` and
  `fromBytesBE`/`fromBytesLE`;
* three-argument `pow(b, e, m)` becomes `powMod`;
* `bin(k)[2:]` becomes `pyBin` (a most-significant-bit-first list of bits,
  `[false]` for `k = 0`, mirroring the string "0");
* fallible operations (Python exceptions) return `PRes`, an
  ok-or-named-exception result.

Definitions follow the source of `ecpy/curves.py`, `ecpy/formatters.py`,
`ecpy/ecschnorr.py` and `ecpy/eddsa.py` function by function; the constants
of the curve registry are transcribed verbatim from the `curves` table.
-/

/-- Big-endian byte conversion of a natural number into exactly `len` bytes,
modelling Python `v.to_bytes(len, 'big')` (without the overflow check). -/
def toBytesBE : (len : ℕ) → (v : ℕ) → List ℕ
  | 0, _ => []
  | len + 1, v => toBytesBE len (v / 256) ++ [v % 256]

/-- Little-endian byte conversion of a natural number into exactly `len`
bytes, modelling Python `v.to_bytes(len, 'little')`. -/
def toBytesLE : (len : ℕ) → (v : ℕ) → List ℕ
  | 0, _ => []
  | len + 1, v => v % 256 :: toBytesLE len (v / 256)

/-- Big-endian interpretation of a byte list, modelling Python
`int.from_bytes(b, 'big')`. -/
def fromBytesBE (b : List ℕ) : ℕ :=
  List.foldl (fun acc x => acc * 256 + x) 0 b

/-- Little-endian interpretation of a byte list, modelling Python
`int.from_bytes(b, 'little')`. -/
def fromBytesLE (b : List ℕ) : ℕ :=
  List.foldr (fun x acc => x + 256 * acc) 0 b

/-- Strictness helper: force a natural number to a literal before passing
it on. `sforce n k = k n` (see `sforce_eq`); it exists only so that the
kernel evaluates loop states eagerly instead of building deep thunks. -/
def sforce {α : Type} (n : ℕ) (k : ℕ → α) : α :=
  match n with
  | 0 => k 0
  | m + 1 => k (m + 1)

/-- Strictness helper for integers, built on `sforce`. -/
def zforce {α : Type} (z : ℤ) (k : ℤ → α) : α :=
  match z with
  | .ofNat n => sforce n (fun m => k (.ofNat m))
  | .negSucc n => sforce n (fun m => k (.negSucc m))

theorem sforce_eq {α : Type} (n : ℕ) (k : ℕ → α) : sforce n k = k n := by
  cases n <;> rfl

theorem zforce_eq {α : Type} (z : ℤ) (k : ℤ → α) : zforce z k = k z := by
  cases z with
  | ofNat n => cases n <;> rfl
  | negSucc n => cases n <;> rfl

/-- Fuel-driven core of `powMod`: right-to-left binary exponentiation with
an accumulator, computing `(acc * b^e) % m`. The fuel only bounds the
recursion depth (one unit per halving of the exponent). -/
def powModAux : (fuel : ℕ) → (b : ℤ) → (e : ℕ) → (acc : ℤ) → (m : ℤ) → ℤ
  | 0, _, _, acc, m => acc % m
  | fuel + 1, b, e, acc, m =>
    if e = 0 then acc % m
    else
      let acc' := if e % 2 = 1 then (acc * b) % m else acc
      zforce acc' fun acc'' =>
        zforce ((b * b) % m) fun b' =>
          powModAux fuel b' (e / 2) acc'' m

/-- Modular exponentiation, modelling Python's three-argument
`pow(b, e, m)` for a nonnegative exponent and positive modulus; the
characterisation `powMod_spec` below shows it computes `b^e % m`. -/
def powMod (b : ℤ) (e : ℕ) (m : ℤ) : ℤ :=
  powModAux (e + 1) b e 1 m

theorem powModAux_spec (m : ℤ) :
    ∀ fuel e b acc, e < fuel → powModAux fuel b e acc m = (acc * b ^ e) % m := by
  intro fuel
  induction fuel with
  | zero => intro e b acc h; omega
  | succ fuel ih =>
    intro e b acc h
    by_cases he : e = 0
    · subst he
      simp [powModAux]
    · simp only [powModAux, he, if_false, zforce_eq]
      rw [ih (e / 2) ((b * b) % m) _ (by omega)]
      have key : ∀ acc' : ℤ, acc' * ((b * b) % m) ^ (e / 2) % m
          = acc' * (b * b) ^ (e / 2) % m := fun acc' =>
        Int.ModEq.mul_left acc' (Int.ModEq.pow _ (Int.emod_emod_of_dvd _ dvd_rfl))
      rw [key]
      by_cases hodd : e % 2 = 1
      · rw [if_pos hodd]
        have key2 : (acc * b) % m * (b * b) ^ (e / 2) % m
            = acc * b * (b * b) ^ (e / 2) % m :=
          Int.ModEq.mul_right _ (Int.emod_emod_of_dvd _ dvd_rfl)
        rw [key2]
        congr 1
        calc acc * b * (b * b) ^ (e / 2)
            = acc * (b * (b ^ 2) ^ (e / 2)) := by rw [← pow_two]; ring
          _ = acc * (b * b ^ (2 * (e / 2))) := by rw [← pow_mul]
          _ = acc * b ^ (2 * (e / 2) + 1) := by rw [← pow_succ']
          _ = acc * b ^ e := by rw [show 2 * (e / 2) + 1 = e by omega]
      · rw [if_neg hodd]
        congr 1
        calc acc * (b * b) ^ (e / 2)
            = acc * (b ^ 2) ^ (e / 2) := by rw [← pow_two]
          _ = acc * b ^ (2 * (e / 2)) := by rw [← pow_mul]
          _ = acc * b ^ e := by rw [show 2 * (e / 2) = e by omega]

theorem powMod_spec (b : ℤ) (e : ℕ) (m : ℤ) :
    powMod b e m = b ^ e % m := by
  rw [powMod, powModAux_spec m (e + 1) e b 1 (by omega), one_mul]

/-- Fuel-driven list of the bits of `n`, least significant first. -/
def bitsLEAux : (fuel : ℕ) → (n : ℕ) → List Bool
  | 0, _ => []
  | _ + 1, 0 => []
  | fuel + 1, n + 1 => ((n + 1) % 2 == 1) :: bitsLEAux fuel ((n + 1) / 2)

/-- The bit string `bin(k)[2:]` used by the scalar-multiplication loops:
most significant bit first, and the single bit `0` (here `[false]`) for
`k = 0`, exactly as Python's `bin(0) = "0b0"`. -/
def pyBin (k : ℕ) : List Bool :=
  if k = 0 then [false] else (bitsLEAux k k).reverse

/-- Strictness helper for triples of integers. -/
def zforce3 {α : Type} (t : ℤ × ℤ × ℤ) (k : ℤ × ℤ × ℤ → α) : α :=
  zforce t.1 fun a => zforce t.2.1 fun b => zforce t.2.2 fun c => k (a, b, c)

/-- Strictness helper for quadruples of integers. -/
def zforce4 {α : Type} (t : ℤ × ℤ × ℤ × ℤ) (k : ℤ × ℤ × ℤ × ℤ → α) : α :=
  zforce t.1 fun a => zforce t.2.1 fun b =>
  zforce t.2.2.1 fun c => zforce t.2.2.2 fun d => k (a, b, c, d)

theorem zforce3_eq {α : Type} (t : ℤ × ℤ × ℤ) (k : ℤ × ℤ × ℤ → α) :
    zforce3 t k = k t := by
  simp only [zforce3, zforce_eq]

theorem zforce4_eq {α : Type} (t : ℤ × ℤ × ℤ × ℤ) (k : ℤ × ℤ × ℤ × ℤ → α) :
    zforce4 t k = k t := by
  simp only [zforce4, zforce_eq]

/-- Result of running a fragment of Python code: either a value or a raised
exception, identified by the exception's name. -/
inductive PRes (α : Type) where
  | ok (val : α)
  | exn (msg : String)
deriving DecidableEq

/-- Sequencing of fallible Python steps: an exception propagates. -/
def PRes.bind {α β : Type} : PRes α → (α → PRes β) → PRes β
  | .ok a, f => f a
  | .exn m, _ => .exn m

/-- True exactly when a `PRes` is a raised exception. -/
def PRes.isExn {α : Type} : PRes α → Bool
  | .ok _ => false
  | .exn _ => true

/-- The three curve families of the registry (`WEIERSTRASS`,
`TWISTEDEDWARD`, `MONTGOMERY` string tags in the source). -/
inductive CurveType where
  | WEIERSTRASS
  | TWISTEDEDWARD
  | MONTGOMERY
deriving DecidableEq

/-- One entry of the literal `curves` parameter table of `ecpy/curves.py`.
Entries whose Python dictionary lacks `b` (twisted Edwards) or `d`
(Weierstrass/Montgomery) carry `0` in the unused field, which no operation
of that family reads. -/
structure CurveEntry where
  name : String
  ctype : CurveType
  size : ℕ
  field : ℤ
  gx : ℤ
  gy : ℤ
  order : ℤ
  cofactor : ℤ
  a : ℤ
  b : ℤ
  d : ℤ
deriving DecidableEq

/-- A Python `Point` object: each coordinate slot is `none` when the
corresponding `_x`/`_y` attribute was never assigned (the constructor skips
the assignment when the argument is falsy, i.e. `None` or `0`). -/
structure PyPoint where
  x? : Option ℤ
  y? : Option ℤ
deriving DecidableEq

/-- Reading `P.x`: raises `AttributeError` when `_x` was never set. -/
def PyPoint.getx (P : PyPoint) : PRes ℤ :=
  match P.x? with
  | some v => .ok v
  | none => .exn "AttributeError"

/-- Reading `P.y`: raises `AttributeError` when `_y` was never set. -/
def PyPoint.gety (P : PyPoint) : PRes ℤ :=
  match P.y? with
  | some v => .ok v
  | none => .exn "AttributeError"

/-- `WeierstrassCurve.is_on_curve`: `y² ≡ x³ + a·x + b (mod field)`,
computed exactly as in the source. -/
def WeierstrassCurve.is_on_curve (e : CurveEntry) (x y : ℤ) : Bool :=
  let q := e.field
  let sq3x := (x * x * x) % q
  let sqy := (y * y) % q
  let left := sqy
  let right := (sq3x + e.a * x + e.b) % q
  left == right

/-- `TwistedEdwardCurve.is_on_curve`: `a·x² + y² ≡ 1 + d·x²·y² (mod field)`. -/
def TwistedEdwardCurve.is_on_curve (e : CurveEntry) (x y : ℤ) : Bool :=
  let q := e.field
  let sqx := (x * x) % q
  let sqy := (y * y) % q
  let left := (e.a * sqx + sqy) % q
  let right := (1 + e.d * sqx * sqy) % q
  left == right

/-- `MontgomeryCurve.is_on_curve` with a present, truthy `y`:
`b·y² ≡ x³ + a·x² + x (mod field)`. (With `y` falsy the source instead
tests Euler's criterion on the right-hand side; the point constructor never
reaches `is_on_curve` in that situation, because a falsy coordinate
disables the check.) -/
def MontgomeryCurve.is_on_curve (e : CurveEntry) (x y : ℤ) : Bool :=
  let p := e.field
  let right := (x * x * x + e.a * x * x + x) % p
  let left := (e.b * y * y) % p
  left == right

/-- Family dispatch of `is_on_curve` for a point with both coordinates
present, as used by the `Point` constructor check. -/
def CurveEntry.is_on_curve (e : CurveEntry) (x y : ℤ) : Bool :=
  match e.ctype with
  | .WEIERSTRASS => WeierstrassCurve.is_on_curve e x y
  | .TWISTEDEDWARD => TwistedEdwardCurve.is_on_curve e x y
  | .MONTGOMERY => MontgomeryCurve.is_on_curve e x y

/-- `Point.__init__(x, y, curve, check)`. A falsy argument (`None` or `0`)
leaves the corresponding attribute unset, and `if not x or not y` then
silently disables the on-curve check; with the check enabled and failing,
`ECPyException("Point not on curve")` is raised. -/
def point_init (e : CurveEntry) (x y : Option ℤ) (check : Bool) : PRes PyPoint :=
  let xTruthy : Bool := match x with | some v => v != 0 | none => false
  let yTruthy : Bool := match y with | some v => v != 0 | none => false
  let check := if ¬xTruthy ∨ ¬yTruthy then false else check
  if check ∧ ¬(e.is_on_curve (x.getD 0) (y.getD 0)) then
    .exn "ECPyException"
  else
    .ok { x? := if xTruthy then x else none, y? := if yTruthy then y else none }
def curves : List CurveEntry := [
  { name := "frp256v1",
    ctype := CurveType.WEIERSTRASS,
    size := 256,
    field := 0xf1fd178c0b3ad58f10126de8ce42435b3961adbcabc8ca6de8fcf353d86e9c03,
    gx := 0xb6b3d4c356c139eb31183d4749d423958c27d2dcaf98b70164c97a2dd98f5cff,
    gy := 0x6142e0f7c8b204911f9271f0f3ecef8c2701c307e8e4c9e183115a1554062cfb,
    order := 0xf1fd178c0b3ad58f10126de8ce42435b53dc67e140d2bf941ffdd459c6d655e1,
    cofactor := 1,
    a := 0xf1fd178c0b3ad58f10126de8ce42435b3961adbcabc8ca6de8fcf353d86e9c00,
    b := 0xee353fca5428a9300d4aba754a44c00fdfec0c9ae4b1a1803075ed967b7bb73f,
    d := 0 },
  { name := "secp521r1",
    ctype := CurveType.WEIERSTRASS,
    size := 521,
    field := 0x1ffffffffffffffffffffffffffffffffffffffffffffffffffffffffffffffffffffffffffffffffffffffffffffffffffffffffffffffffffffffffffffffffff,
    gx := 0xc6858e06b70404e9cd9e3ecb662395b4429c648139053fb521f828af606b4d3dbaa14b5e77efe75928fe1dc127a2ffa8de3348b3c1856a429bf97e7e31c2e5bd66,
    gy := 0x11839296a789a3bc0045c8a5fb42c7d1bd998f54449579b446817afbd17273e662c97ee72995ef42640c550b9013fad0761353c7086a272c24088be94769fd16650,
    order := 0x1fffffffffffffffffffffffffffffffffffffffffffffffffffffffffffffffffa51868783bf2f966b7fcc0148f709a5d03bb5c9b8899c47aebb6fb71e91386409,
    cofactor := 1,
    a := 0x1fffffffffffffffffffffffffffffffffffffffffffffffffffffffffffffffffffffffffffffffffffffffffffffffffffffffffffffffffffffffffffffffffc,
    b := 0x51953eb9618e1c9a1f929a21a0b68540eea2da725b99b315f3b8b489918ef109e156193951ec7e937b1652c0bd3bb1bf073573df883d2c34f1ef451fd46b503f00,
    d := 0 },
  { name := "secp384r1",
    ctype := CurveType.WEIERSTRASS,
    size := 384,
    field := 0xfffffffffffffffffffffffffffffffffffffffffffffffffffffffffffffffeffffffff0000000000000000ffffffff,
    gx := 0xaa87ca22be8b05378eb1c71ef320ad746e1d3b628ba79b9859f741e082542a385502f25dbf55296c3a545e3872760ab7,
    gy := 0x3617de4a96262c6f5d9e98bf9292dc29f8f41dbd289a147ce9da3113b5f0b8c00a60b1ce1d7e819d7a431d7c90ea0e5f,
    order := 0xffffffffffffffffffffffffffffffffffffffffffffffffc7634d81f4372ddf581a0db248b0a77aecec196accc52973,
    cofactor := 1,
    a := 0xfffffffffffffffffffffffffffffffffffffffffffffffffffffffffffffffeffffffff0000000000000000fffffffc,
    b := 0xb3312fa7e23ee7e4988e056be3f82d19181d9c6efe8141120314088f5013875ac656398d8a2ed19d2a85c8edd3ec2aef,
    d := 0 },
  { name := "secp256k1",
    ctype := CurveType.WEIERSTRASS,
    size := 256,
    field := 0xfffffffffffffffffffffffffffffffffffffffffffffffffffffffefffffc2f,
    gx := 0x79be667ef9dcbbac55a06295ce870b07029bfcdb2dce28d959f2815b16f81798,
    gy := 0x483ada7726a3c4655da4fbfc0e1108a8fd17b448a68554199c47d08ffb10d4b8,
    order := 0xfffffffffffffffffffffffffffffffebaaedce6af48a03bbfd25e8cd0364141,
    cofactor := 1,
    a := 0,
    b := 7,
    d := 0 },
  { name := "secp256r1",
    ctype := CurveType.WEIERSTRASS,
    size := 256,
    field := 0xffffffff00000001000000000000000000000000ffffffffffffffffffffffff,
    gx := 0x6b17d1f2e12c4247f8bce6e563a440f277037d812deb33a0f4a13945d898c296,
    gy := 0x4fe342e2fe1a7f9b8ee7eb4a7c0f9e162bce33576b315ececbb6406837bf51f5,
    order := 0xffffffff00000000ffffffffffffffffbce6faada7179e84f3b9cac2fc632551,
    cofactor := 1,
    a := 0xffffffff00000001000000000000000000000000fffffffffffffffffffffffc,
    b := 0x5ac635d8aa3a93e7b3ebbd55769886bc651d06b0cc53b0f63bce3c3e27d2604b,
    d := 0 },
  { name := "secp224k1",
    ctype := CurveType.WEIERSTRASS,
    size := 224,
    field := 0xfffffffffffffffffffffffffffffffffffffffffffffffeffffe56d,
    gx := 0xa1455b334df099df30fc28a169a467e9e47075a90f7e650eb6b7a45c,
    gy := 0x7e089fed7fba344282cafbd6f7e319f7c0b0bd59e2ca4bdb556d61a5,
    order := 0x10000000000000000000000000001dce8d2ec6184caf0a971769fb1f7,
    cofactor := 1,
    a := 0,
    b := 5,
    d := 0 },
  { name := "secp224r1",
    ctype := CurveType.WEIERSTRASS,
    size := 224,
    field := 0xffffffffffffffffffffffffffffffff000000000000000000000001,
    gx := 0xb70e0cbd6bb4bf7f321390b94a03c1d356c21122343280d6115c1d21,
    gy := 0xbd376388b5f723fb4c22dfe6cd4375a05a07476444d5819985007e34,
    order := 0xffffffffffffffffffffffffffff16a2e0b8f03e13dd29455c5c2a3d,
    cofactor := 1,
    a := 0xfffffffffffffffffffffffffffffffefffffffffffffffffffffffe,
    b := 0xb4050a850c04b3abf54132565044b0b7d7bfd8ba270b39432355ffb4,
    d := 0 },
  { name := "secp192k1",
    ctype := CurveType.WEIERSTRASS,
    size := 192,
    field := 0xfffffffffffffffffffffffffffffffffffffffeffffee37,
    gx := 0xdb4ff10ec057e9ae26b07d0280b7f4341da5d1b1eae06c7d,
    gy := 0x9b2f2f6d9c5628a7844163d015be86344082aa88d95e2f9d,
    order := 0xfffffffffffffffffffffffe26f2fc170f69466a74defd8d,
    cofactor := 1,
    a := 0,
    b := 3,
    d := 0 },
  { name := "secp192r1",
    ctype := CurveType.WEIERSTRASS,
    size := 256,
    field := 0xfffffffffffffffffffffffffffffffeffffffffffffffff,
    gx := 0x188da80eb03090f67cbf20eb43a18800f4ff0afd82ff1012,
    gy := 0x7192b95ffc8da78631011ed6b24cdd573f977a11e794811,
    order := 0xffffffffffffffffffffffff99def836146bc9b1b4d22831,
    cofactor := 1,
    a := 0xfffffffffffffffffffffffffffffffefffffffffffffffc,
    b := 0x64210519e59c80e70fa7e9ab72243049feb8deecc146b9b1,
    d := 0 },
  { name := "secp160k1",
    ctype := CurveType.WEIERSTRASS,
    size := 160,
    field := 0xfffffffffffffffffffffffffffffffeffffac73,
    gx := 0x3b4c382ce37aa192a4019e763036f4f5dd4d7ebb,
    gy := 0x938cf935318fdced6bc28286531733c3f03c4fee,
    order := 0x100000000000000000001b8fa16dfab9aca16b6b3,
    cofactor := 1,
    a := 0,
    b := 7,
    d := 0 },
  { name := "secp160r1",
    ctype := CurveType.WEIERSTRASS,
    size := 160,
    field := 0xffffffffffffffffffffffffffffffff7fffffff,
    gx := 0x4a96b5688ef573284664698968c38bb913cbfc82,
    gy := 0x23a628553168947d59dcc912042351377ac5fb32,
    order := 0x100000000000000000001f4c8f927aed3ca752257,
    cofactor := 1,
    a := 0xffffffffffffffffffffffffffffffff7ffffffc,
    b := 0x1c97befc54bd7a8b65acf89f81d4d4adc565fa45,
    d := 0 },
  { name := "secp160r2",
    ctype := CurveType.WEIERSTRASS,
    size := 160,
    field := 0xfffffffffffffffffffffffffffffffeffffac73,
    gx := 0x52dcb034293a117e1f4ff11b30f7199d3144ce6d,
    gy := 0xfeaffef2e331f296e071fa0df9982cfea7d43f2e,
    order := 0x100000000000000000000351ee786a818f3a1a16b,
    cofactor := 1,
    a := 0xfffffffffffffffffffffffffffffffeffffac70,
    b := 0xb4e134d3fb59eb8bab57274904664d5af50388ba,
    d := 0 },
  { name := "Brainpool-p512t1",
    ctype := CurveType.WEIERSTRASS,
    size := 512,
    field := 0xaadd9db8dbe9c48b3fd4e6ae33c9fc07cb308db3b3c9d20ed6639cca703308717d4d9b009bc66842aecda12ae6a380e62881ff2f2d82c68528aa6056583a48f3,
    gx := 0x640ece5c12788717b9c1ba06cbc2a6feba85842458c56dde9db1758d39c0313d82ba51735cdb3ea499aa77a7d6943a64f7a3f25fe26f06b51baa2696fa9035da,
    gy := 0x5b534bd595f5af0fa2c892376c84ace1bb4e3019b71634c01131159cae03cee9d9932184beef216bd71df2dadf86a627306ecff96dbb8bace198b61e00f8b332,
    order := 0xaadd9db8dbe9c48b3fd4e6ae33c9fc07cb308db3b3c9d20ed6639cca70330870553e5c414ca92619418661197fac10471db1d381085ddaddb58796829ca90069,
    cofactor := 1,
    a := 0xaadd9db8dbe9c48b3fd4e6ae33c9fc07cb308db3b3c9d20ed6639cca703308717d4d9b009bc66842aecda12ae6a380e62881ff2f2d82c68528aa6056583a48f0,
    b := 0x7cbbbcf9441cfab76e1890e46884eae321f70c0bcb4981527897504bec3e36a62bcdfa2304976540f6450085f2dae145c22553b465763689180ea2571867423e,
    d := 0 },
  { name := "Brainpool-p512r1",
    ctype := CurveType.WEIERSTRASS,
    size := 512,
    field := 0xaadd9db8dbe9c48b3fd4e6ae33c9fc07cb308db3b3c9d20ed6639cca703308717d4d9b009bc66842aecda12ae6a380e62881ff2f2d82c68528aa6056583a48f3,
    gx := 0x81aee4bdd82ed9645a21322e9c4c6a9385ed9f70b5d916c1b43b62eef4d0098eff3b1f78e2d0d48d50d1687b93b97d5f7c6d5047406a5e688b352209bcb9f822,
    gy := 0x7dde385d566332ecc0eabfa9cf7822fdf209f70024a57b1aa000c55b881f8111b2dcde494a5f485e5bca4bd88a2763aed1ca2b2fa8f0540678cd1e0f3ad80892,
    order := 0xaadd9db8dbe9c48b3fd4e6ae33c9fc07cb308db3b3c9d20ed6639cca70330870553e5c414ca92619418661197fac10471db1d381085ddaddb58796829ca90069,
    cofactor := 1,
    a := 0x7830a3318b603b89e2327145ac234cc594cbdd8d3df91610a83441caea9863bc2ded5d5aa8253aa10a2ef1c98b9ac8b57f1117a72bf2c7b9e7c1ac4d77fc94ca,
    b := 0x3df91610a83441caea9863bc2ded5d5aa8253aa10a2ef1c98b9ac8b57f1117a72bf2c7b9e7c1ac4d77fc94cadc083e67984050b75ebae5dd2809bd638016f723,
    d := 0 },
  { name := "Brainpool-p384t1",
    ctype := CurveType.WEIERSTRASS,
    size := 384,
    field := 0x8cb91e82a3386d280f5d6f7e50e641df152f7109ed5456b412b1da197fb71123acd3a729901d1a71874700133107ec53,
    gx := 0x18de98b02db9a306f2afcd7235f72a819b80ab12ebd653172476fecd462aabffc4ff191b946a5f54d8d0aa2f418808cc,
    gy := 0x25ab056962d30651a114afd2755ad336747f93475b7a1fca3b88f2b6a208ccfe469408584dc2b2912675bf5b9e582928,
    order := 0x8cb91e82a3386d280f5d6f7e50e641df152f7109ed5456b31f166e6cac0425a7cf3ab6af6b7fc3103b883202e9046565,
    cofactor := 1,
    a := 0x8cb91e82a3386d280f5d6f7e50e641df152f7109ed5456b412b1da197fb71123acd3a729901d1a71874700133107ec50,
    b := 0x7f519eada7bda81bd826dba647910f8c4b9346ed8ccdc64e4b1abd11756dce1d2074aa263b88805ced70355a33b471ee,
    d := 0 },
  { name := "Brainpool-p384r1",
    ctype := CurveType.WEIERSTRASS,
    size := 384,
    field := 0x8cb91e82a3386d280f5d6f7e50e641df152f7109ed5456b412b1da197fb71123acd3a729901d1a71874700133107ec53,
    gx := 0x1d1c64f068cf45ffa2a63a81b7c13f6b8847a3e77ef14fe3db7fcafe0cbd10e8e826e03436d646aaef87b2e247d4af1e,
    gy := 0x8abe1d7520f9c2a45cb1eb8e95cfd55262b70b29feec5864e19c054ff99129280e4646217791811142820341263c5315,
    order := 0x8cb91e82a3386d280f5d6f7e50e641df152f7109ed5456b31f166e6cac0425a7cf3ab6af6b7fc3103b883202e9046565,
    cofactor := 1,
    a := 0x7bc382c63d8c150c3c72080ace05afa0c2bea28e4fb22787139165efba91f90f8aa5814a503ad4eb04a8c7dd22ce2826,
    b := 0x4a8c7dd22ce28268b39b55416f0447c2fb77de107dcd2a62e880ea53eeb62d57cb4390295dbc9943ab78696fa504c11,
    d := 0 },
  { name := "Brainpool-p320t1",
    ctype := CurveType.WEIERSTRASS,
    size := 320,
    field := 0xd35e472036bc4fb7e13c785ed201e065f98fcfa6f6f40def4f92b9ec7893ec28fcd412b1f1b32e27,
    gx := 0x925be9fb01afc6fb4d3e7d4990010f813408ab106c4f09cb7ee07868cc136fff3357f624a21bed52,
    gy := 0x63ba3a7a27483ebf6671dbef7abb30ebee084e58a0b077ad42a5a0989d1ee71b1b9bc0455fb0d2c3,
    order := 0xd35e472036bc4fb7e13c785ed201e065f98fcfa5b68f12a32d482ec7ee8658e98691555b44c59311,
    cofactor := 1,
    a := 0xd35e472036bc4fb7e13c785ed201e065f98fcfa6f6f40def4f92b9ec7893ec28fcd412b1f1b32e24,
    b := 0xa7f561e038eb1ed560b3d147db782013064c19f27ed27c6780aaf77fb8a547ceb5b4fef422340353,
    d := 0 },
  { name := "Brainpool-p320r1",
    ctype := CurveType.WEIERSTRASS,
    size := 320,
    field := 0xd35e472036bc4fb7e13c785ed201e065f98fcfa6f6f40def4f92b9ec7893ec28fcd412b1f1b32e27,
    gx := 0x43bd7e9afb53d8b85289bcc48ee5bfe6f20137d10a087eb6e7871e2a10a599c710af8d0d39e20611,
    gy := 0x14fdd05545ec1cc8ab4093247f77275e0743ffed117182eaa9c77877aaac6ac7d35245d1692e8ee1,
    order := 0xd35e472036bc4fb7e13c785ed201e065f98fcfa5b68f12a32d482ec7ee8658e98691555b44c59311,
    cofactor := 1,
    a := 0x3ee30b568fbab0f883ccebd46d3f3bb8a2a73513f5eb79da66190eb085ffa9f492f375a97d860eb4,
    b := 0x520883949dfdbc42d3ad198640688a6fe13f41349554b49acc31dccd884539816f5eb4ac8fb1f1a6,
    d := 0 },
  { name := "Brainpool-p256r1",
    ctype := CurveType.WEIERSTRASS,
    size := 256,
    field := 0xa9fb57dba1eea9bc3e660a909d838d726e3bf623d52620282013481d1f6e5377,
    gx := 0x8bd2aeb9cb7e57cb2c4b482ffc81b7afb9de27e1e3bd23c23a4453bd9ace3262,
    gy := 0x547ef835c3dac4fd97f8461a14611dc9c27745132ded8e545c1d54c72f046997,
    order := 0xa9fb57dba1eea9bc3e660a909d838d718c397aa3b561a6f7901e0e82974856a7,
    cofactor := 1,
    a := 0x7d5a0975fc2c3057eef67530417affe7fb8055c126dc5c6ce94a4b44f330b5d9,
    b := 0x26dc5c6ce94a4b44f330b5d9bbd77cbf958416295cf7e1ce6bccdc18ff8c07b6,
    d := 0 },
  { name := "Brainpool-p256t1",
    ctype := CurveType.WEIERSTRASS,
    size := 256,
    field := 0xa9fb57dba1eea9bc3e660a909d838d726e3bf623d52620282013481d1f6e5377,
    gx := 0xa3e8eb3cc1cfe7b7732213b23a656149afa142c47aafbc2b79a191562e1305f4,
    gy := 0x2d996c823439c56d7f7b22e14644417e69bcb6de39d027001dabe8f35b25c9be,
    order := 0xa9fb57dba1eea9bc3e660a909d838d718c397aa3b561a6f7901e0e82974856a7,
    cofactor := 1,
    a := 0xa9fb57dba1eea9bc3e660a909d838d726e3bf623d52620282013481d1f6e5374,
    b := 0x662c61c430d84ea4fe66a7733d0b76b7bf93ebc4af2f49256ae58101fee92b04,
    d := 0 },
  { name := "Brainpool-p224r1",
    ctype := CurveType.WEIERSTRASS,
    size := 224,
    field := 0xd7c134aa264366862a18302575d1d787b09f075797da89f57ec8c0ff,
    gx := 0xd9029ad2c7e5cf4340823b2a87dc68c9e4ce3174c1e6efdee12c07d,
    gy := 0x58aa56f772c0726f24c6b89e4ecdac24354b9e99caa3f6d3761402cd,
    order := 0xd7c134aa264366862a18302575d0fb98d116bc4b6ddebca3a5a7939f,
    cofactor := 1,
    a := 0x68a5e62ca9ce6c1c299803a6c1530b514e182ad8b0042a59cad29f43,
    b := 0x2580f63ccfe44138870713b1a92369e33e2135d266dbb372386c400b,
    d := 0 },
  { name := "Brainpool-p224t1",
    ctype := CurveType.WEIERSTRASS,
    size := 192,
    field := 0x2df271e14427a346910cf7a2e6cfa7b3f484e5c2cce1c8b730e28b3f,
    gx := 0x6ab1e344ce25ff3896424e7ffe14762ecb49f8928ac0c76029b4d580,
    gy := 0x374e9f5143e568cd23f3f4d7c0d4b1e41c8cc0d1c6abd5f1a46db4c,
    order := 0xd7c134aa264366862a18302575d0fb98d116bc4b6ddebca3a5a7939f,
    cofactor := 1,
    a := 0xd7c134aa264366862a18302575d1d787b09f075797da89f57ec8c0fc,
    b := 0x4b337d934104cd7bef271bf60ced1ed20da14c08b3bb64f18a60888d,
    d := 0 },
  { name := "Brainpool-p192r1",
    ctype := CurveType.WEIERSTRASS,
    size := 192,
    field := 0xc302f41d932a36cda7a3463093d18db78fce476de1a86297,
    gx := 0xc0a0647eaab6a48753b033c56cb0f0900a2f5c4853375fd6,
    gy := 0x14b690866abd5bb88b5f4828c1490002e6773fa2fa299b8f,
    order := 0xc302f41d932a36cda7a3462f9e9e916b5be8f1029ac4acc1,
    cofactor := 1,
    a := 0x6a91174076b1e0e19c39c031fe8685c1cae040e5c69a28ef,
    b := 0x469a28ef7c28cca3dc721d044f4496bcca7ef4146fbf25c9,
    d := 0 },
  { name := "Brainpool-p192t1",
    ctype := CurveType.WEIERSTRASS,
    size := 192,
    field := 0xc302f41d932a36cda7a3463093d18db78fce476de1a86297,
    gx := 0x3ae9e58c82f63c30282e1fe7bbf43fa72c446af6f4618129,
    gy := 0x97e2c5667c2223a902ab5ca449d0084b7e5b3de7ccc01c9,
    order := 0xc302f41d932a36cda7a3462f9e9e916b5be8f1029ac4acc1,
    cofactor := 1,
    a := 0xc302f41d932a36cda7a3463093d18db78fce476de1a86294,
    b := 0x13d56ffaec78681e68f9deb43b35bec2fb68542e27897b79,
    d := 0 },
  { name := "Brainpool-p160r1",
    ctype := CurveType.WEIERSTRASS,
    size := 160,
    field := 0xe95e4a5f737059dc60dfc7ad95b3d8139515620f,
    gx := 0xbed5af16ea3f6a4f62938c4631eb5af7bdbcdbc3,
    gy := 0x1667cb477a1a8ec338f94741669c976316da6321,
    order := 0xe95e4a5f737059dc60df5991d45029409e60fc09,
    cofactor := 1,
    a := 0x340e7be2a280eb74e2be61bada745d97e8f7c300,
    b := 0x1e589a8595423412134faa2dbdec95c8d8675e58,
    d := 0 },
  { name := "Brainpool-p160t1",
    ctype := CurveType.WEIERSTRASS,
    size := 160,
    field := 0xe95e4a5f737059dc60dfc7ad95b3d8139515620f,
    gx := 0xb199b13b9b34efc1397e64baeb05acc265ff2378,
    gy := 0xadd6718b7c7c1961f0991b842443772152c9e0ad,
    order := 0xe95e4a5f737059dc60df5991d45029409e60fc09,
    cofactor := 1,
    a := 0xe95e4a5f737059dc60dfc7ad95b3d8139515620c,
    b := 0x7a556b6dae535b7b51ed2c4d7daa7a0b5c55f380,
    d := 0 },
  { name := "NIST-P256",
    ctype := CurveType.WEIERSTRASS,
    size := 256,
    field := 0xffffffff00000001000000000000000000000000ffffffffffffffffffffffff,
    gx := 0x6b17d1f2e12c4247f8bce6e563a440f277037d812deb33a0f4a13945d898c296,
    gy := 0x4fe342e2fe1a7f9b8ee7eb4a7c0f9e162bce33576b315ececbb6406837bf51f5,
    order := 0xffffffff00000000ffffffffffffffffbce6faada7179e84f3b9cac2fc632551,
    cofactor := 1,
    a := 0xffffffff00000001000000000000000000000000fffffffffffffffffffffffc,
    b := 0x5ac635d8aa3a93e7b3ebbd55769886bc651d06b0cc53b0f63bce3c3e27d2604b,
    d := 0 },
  { name := "NIST-P224",
    ctype := CurveType.WEIERSTRASS,
    size := 224,
    field := 0xffffffffffffffffffffffffffffffff000000000000000000000001,
    gx := 0xb70e0cbd6bb4bf7f321390b94a03c1d356c21122343280d6115c1d21,
    gy := 0xbd376388b5f723fb4c22dfe6cd4375a05a07476444d5819985007e34,
    order := 0xffffffffffffffffffffffffffff16a2e0b8f03e13dd29455c5c2a3d,
    cofactor := 1,
    a := 0xfffffffffffffffffffffffffffffffefffffffffffffffffffffffe,
    b := 0xb4050a850c04b3abf54132565044b0b7d7bfd8ba270b39432355ffb4,
    d := 0 },
  { name := "NIST-P192",
    ctype := CurveType.WEIERSTRASS,
    size := 192,
    field := 0xfffffffffffffffffffffffffffffffeffffffffffffffff,
    gx := 0x188da80eb03090f67cbf20eb43a18800f4ff0afd82ff1012,
    gy := 0x7192b95ffc8da78631011ed6b24cdd573f977a11e794811,
    order := 0xffffffffffffffffffffffff99def836146bc9b1b4d22831,
    cofactor := 1,
    a := 0xfffffffffffffffffffffffffffffffefffffffffffffffc,
    b := 0x64210519e59c80e70fa7e9ab72243049feb8deecc146b9b1,
    d := 0 },
  { name := "Ed448",
    ctype := CurveType.TWISTEDEDWARD,
    size := 448,
    field := 0xfffffffffffffffffffffffffffffffffffffffffffffffffffffffeffffffffffffffffffffffffffffffffffffffffffffffffffffffff,
    gx := 0x4f1970c66bed0ded221d15a622bf36da9e146570470f1767ea6de324a3d3a46412ae1af72ab66511433b80e18b00938e2626a82bc70cc05e,
    gy := 0x693f46716eb6bc248876203756c9c7624bea73736ca3984087789c1e05a0c2d73ad3ff1ce67c39c4fdbd132c4ed7c8ad9808795bf230fa14,
    order := 0x3fffffffffffffffffffffffffffffffffffffffffffffffffffffff7cca23e9c44edb49aed63690216cc2728dc58f552378c292ab5844f3,
    cofactor := 4,
    a := 1,
    b := 0,
    d := 0xfffffffffffffffffffffffffffffffffffffffffffffffffffffffeffffffffffffffffffffffffffffffffffffffffffffffffffff6756 },
  { name := "Ed25519",
    ctype := CurveType.TWISTEDEDWARD,
    size := 256,
    field := 0x7fffffffffffffffffffffffffffffffffffffffffffffffffffffffffffffed,
    gx := 0x216936d3cd6e53fec0a4e231fdd6dc5c692cc7609525a7b2c9562d608f25d51a,
    gy := 0x6666666666666666666666666666666666666666666666666666666666666658,
    order := 0x1000000000000000000000000000000014def9dea2f79cd65812631a5cf5d3ed,
    cofactor := 8,
    a := (-1),
    b := 0,
    d := 0x52036cee2b6ffe738cc740797779e89800700a4d4141d8ab75eb4dca135978a3 },
  { name := "Curve448",
    ctype := CurveType.MONTGOMERY,
    size := 448,
    field := 0xfffffffffffffffffffffffffffffffffffffffffffffffffffffffeffffffffffffffffffffffffffffffffffffffffffffffffffffffff,
    gx := 5,
    gy := 0x7d235d1295f5b1f66c98ab6e58326fcecbae5d34f55545d060f75dc28df3f6edb8027e2346430d211312c4b150677af76fd7223d457b5b1a,
    order := 0x3fffffffffffffffffffffffffffffffffffffffffffffffffffffff7cca23e9c44edb49aed63690216cc2728dc58f552378c292ab5844f3,
    cofactor := 4,
    a := 0x262a6,
    b := 1,
    d := 0 },
  { name := "Curve25519",
    ctype := CurveType.MONTGOMERY,
    size := 256,
    field := 0x7fffffffffffffffffffffffffffffffffffffffffffffffffffffffffffffed,
    gx := 9,
    gy := 0x5f51e65e475f794b1fe122d388b72eb36dc2b28192839e4dd6163a5d81312c14,
    order := 0x1000000000000000000000000000000014def9dea2f79cd65812631a5cf5d3ed,
    cofactor := 8,
    a := 0x76d06,
    b := 1,
    d := 0 }
]

/-- Result of `Curve.get_curve(name)`: the Python function returns `None`
for an unknown name, and otherwise constructs the curve object, whose
`_set` builds `generator` as `Point(gx, gy, self)` with the on-curve check
enabled — so a bad table entry makes the constructor raise. -/
inductive GetCurveResult where
  | absent
  | raised (msg : String)
  | found (e : CurveEntry)
deriving DecidableEq

/-- `Curve.get_curve(name)`: linear search of the table by exact name,
then construction of the curve, including the generator's checked `Point`. -/
def get_curve (name : String) : GetCurveResult :=
  match curves.find? (fun c => c.name == name) with
  | none => .absent
  | some cp =>
    match point_init cp (some cp.gx) (some cp.gy) true with
    | .exn m => .raised m
    | .ok _ => .found cp

/-- `Curve.get_curve_names()`: the registered names in table order. -/
def get_curve_names : List String :=
  curves.map (fun c => c.name)

/-- The registry round trip of the specification for one name:
`get_curve(name)` succeeds, its `name` attribute equals `name`, and its
generator satisfies `is_on_curve`. -/
def round_trip_ok (name : String) : Bool :=
  match get_curve name with
  | .found e => e.name == name && e.is_on_curve e.gx e.gy
  | _ => false

/-- `WeierstrassCurve._aff2jac`: affine to Jacobian coordinates. -/
def WeierstrassCurve._aff2jac (x y _q : ℤ) : ℤ × ℤ × ℤ :=
  (x, y, 1)

/-- `WeierstrassCurve._jac2aff`: Jacobian to affine coordinates, inverting
`z` with Fermat's little theorem (`pow(z, q-2, q)`). -/
def WeierstrassCurve._jac2aff (x y z q : ℤ) : ℤ × ℤ :=
  let invz := powMod z (q - 2).toNat q
  let sqinvz := (invz * invz) % q
  ((x * sqinvz) % q, (y * sqinvz * invz) % q)

/-- `WeierstrassCurve._dbl_jac`: Jacobian point doubling. -/
def WeierstrassCurve._dbl_jac (X1 Y1 Z1 q a : ℤ) : ℤ × ℤ × ℤ :=
  let XX := (X1 * X1) % q
  let YY := (Y1 * Y1) % q
  let YYYY := (YY * YY) % q
  let ZZ := (Z1 * Z1) % q
  let S := (2 * ((X1 + YY) * (X1 + YY) - XX - YYYY)) % q
  let M := (3 * XX + a * ZZ * ZZ) % q
  let T := (M * M - 2 * S) % q
  let X3 := T % q
  let Y3 := (M * (S - T) - 8 * YYYY) % q
  let Z3 := ((Y1 + Z1) * (Y1 + Z1) - YY - ZZ) % q
  (X3, Y3, Z3)

/-- `WeierstrassCurve._add_jac`: Jacobian addition of two distinct points
(the formula is singular when the operands are equal or opposite). -/
def WeierstrassCurve._add_jac (X1 Y1 Z1 X2 Y2 Z2 q : ℤ) : ℤ × ℤ × ℤ :=
  let Z1Z1 := (Z1 * Z1) % q
  let Z2Z2 := (Z2 * Z2) % q
  let U1 := (X1 * Z2Z2) % q
  let U2 := (X2 * Z1Z1) % q
  let S1 := (Y1 * Z2 * Z2Z2) % q
  let S2 := (Y2 * Z1 * Z1Z1) % q
  let H := (U2 - U1) % q
  let I := ((2 * H) * (2 * H)) % q
  let J := (H * I) % q
  let r := (2 * (S2 - S1)) % q
  let V := (U1 * I) % q
  let X3 := (r * r - J - 2 * V) % q
  let Y3 := (r * (V - X3) - 2 * S1 * J) % q
  let Z3 := (((Z1 + Z2) * (Z1 + Z2) - Z1Z1 - Z2Z2) * H) % q
  (X3, Y3, Z3)

/-- `WeierstrassCurve.add_point` at the level of affine coordinate pairs.
As in the source, equal operands (Python `P == Q`, which on a shared curve
compares the coordinates) are dispatched to doubling, anything else to the
distinct-point addition formula. -/
def WeierstrassCurve.add_point (e : CurveEntry) (P Q : ℤ × ℤ) : ℤ × ℤ :=
  let q := e.field
  if P = Q then
    let (px, py, pz) := WeierstrassCurve._aff2jac P.1 P.2 q
    let (x, y, z) := WeierstrassCurve._dbl_jac px py pz q e.a
    WeierstrassCurve._jac2aff x y z q
  else
    let (px, py, pz) := WeierstrassCurve._aff2jac P.1 P.2 q
    let (qx, qy, qz) := WeierstrassCurve._aff2jac Q.1 Q.2 q
    let (x, y, z) := WeierstrassCurve._add_jac px py pz qx qy qz q
    WeierstrassCurve._jac2aff x y z q

/-- One iteration of the `mul_point` double-and-add loop: on a `1` bit the
first accumulator receives `x2+x1` and the second doubles, on a `0` bit the
roles are swapped — exactly the two branches of the Python loop body. -/
def WeierstrassCurve.mul_step (q a : ℤ) (st : (ℤ × ℤ × ℤ) × (ℤ × ℤ × ℤ))
    (bit : Bool) : (ℤ × ℤ × ℤ) × (ℤ × ℤ × ℤ) :=
  match st with
  | ((x1, y1, z1), (x2, y2, z2)) =>
    if bit then
      (WeierstrassCurve._add_jac x2 y2 z2 x1 y1 z1 q,
       WeierstrassCurve._dbl_jac x2 y2 z2 q a)
    else
      (WeierstrassCurve._dbl_jac x1 y1 z1 q a,
       WeierstrassCurve._add_jac x1 y1 z1 x2 y2 z2 q)

/-- The `for i in range(1, sz)` loop of `mul_point`, one `mul_step` per
remaining bit. -/
def WeierstrassCurve.mul_loop (q a : ℤ) :
    List Bool → (ℤ × ℤ × ℤ) × (ℤ × ℤ × ℤ) → (ℤ × ℤ × ℤ) × (ℤ × ℤ × ℤ)
  | [], st => st
  | bit :: rest, st => WeierstrassCurve.mul_loop q a rest (WeierstrassCurve.mul_step q a st bit)

/-- `mul_loop` with each intermediate coordinate forced to a literal; equal
to `mul_loop` by `mul_loop_fast_eq`, and used only to evaluate concrete
instances without deep lazy towers. -/
def WeierstrassCurve.mul_loop_fast (q a : ℤ) :
    List Bool → (ℤ × ℤ × ℤ) × (ℤ × ℤ × ℤ) → (ℤ × ℤ × ℤ) × (ℤ × ℤ × ℤ)
  | [], st => st
  | bit :: rest, st =>
    match WeierstrassCurve.mul_step q a st bit with
    | (s1, s2) =>
      zforce3 s1 fun t1 => zforce3 s2 fun t2 =>
        WeierstrassCurve.mul_loop_fast q a rest (t1, t2)

theorem WeierstrassCurve.w_mul_loop_fast_eq (q a : ℤ) (bits : List Bool)
    (st : (ℤ × ℤ × ℤ) × (ℤ × ℤ × ℤ)) :
    WeierstrassCurve.mul_loop_fast q a bits st = WeierstrassCurve.mul_loop q a bits st := by
  induction bits generalizing st with
  | nil => rfl
  | cons bit rest ih =>
    simp only [WeierstrassCurve.mul_loop_fast, WeierstrassCurve.mul_loop]
    rcases h : WeierstrassCurve.mul_step q a st bit with ⟨s1, s2⟩
    simp only [zforce3_eq]
    exact ih (s1, s2)

/-- `WeierstrassCurve.mul_point` at the level of affine coordinate pairs:
left-to-right double-and-add over `bin(k)[2:]`, keeping two accumulators. -/
def WeierstrassCurve.mul_point (e : CurveEntry) (k : ℕ) (P : ℤ × ℤ) : ℤ × ℤ :=
  let q := e.field
  let a := e.a
  let s1 := WeierstrassCurve._aff2jac P.1 P.2 q
  let s2 := WeierstrassCurve._dbl_jac s1.1 s1.2.1 s1.2.2 q a
  let fin := WeierstrassCurve.mul_loop q a ((pyBin k).drop 1) (s1, s2)
  WeierstrassCurve._jac2aff fin.1.1 fin.1.2.1 fin.1.2.2 q

/-- Evaluation-friendly form of `mul_point` (same value, strict loop). -/
def WeierstrassCurve.mul_point_fast (e : CurveEntry) (k : ℕ) (P : ℤ × ℤ) : ℤ × ℤ :=
  let q := e.field
  let a := e.a
  let s1 := WeierstrassCurve._aff2jac P.1 P.2 q
  let s2 := WeierstrassCurve._dbl_jac s1.1 s1.2.1 s1.2.2 q a
  let fin := WeierstrassCurve.mul_loop_fast q a ((pyBin k).drop 1) (s1, s2)
  WeierstrassCurve._jac2aff fin.1.1 fin.1.2.1 fin.1.2.2 q

theorem WeierstrassCurve.w_mul_point_fast_eq (e : CurveEntry) (k : ℕ) (P : ℤ × ℤ) :
    WeierstrassCurve.mul_point e k P = WeierstrassCurve.mul_point_fast e k P := by
  simp only [WeierstrassCurve.mul_point, WeierstrassCurve.mul_point_fast,
    WeierstrassCurve.w_mul_loop_fast_eq]

/-- `TwistedEdwardCurve._aff2ext`: affine to extended coordinates. -/
def TwistedEdwardCurve._aff2ext (x y q : ℤ) : ℤ × ℤ × ℤ × ℤ :=
  let z : ℤ := 1
  let t := (x * y * z) % q
  let x := (x * z) % q
  let y := (y * z) % q
  (x, y, z, t)

/-- `TwistedEdwardCurve._ext2aff`: extended to affine coordinates. -/
def TwistedEdwardCurve._ext2aff (x y z _xy q : ℤ) : ℤ × ℤ :=
  let invz := powMod z (q - 2).toNat q
  ((x * invz) % q, (y * invz) % q)

/-- `TwistedEdwardCurve._dbl_ext`: extended-coordinate doubling. -/
def TwistedEdwardCurve._dbl_ext (X1 Y1 Z1 _XY1 q a : ℤ) : ℤ × ℤ × ℤ × ℤ :=
  let A := (X1 * X1) % q
  let B := (Y1 * Y1) % q
  let C := (2 * Z1 * Z1) % q
  let D := (a * A) % q
  let E := ((X1 + Y1) * (X1 + Y1) - A - B) % q
  let G := (D + B) % q
  let F := (G - C) % q
  let H := (D - B) % q
  let X3 := (E * F) % q
  let Y3 := (G * H) % q
  let XY3 := (E * H) % q
  let Z3 := (F * G) % q
  (X3, Y3, Z3, XY3)

/-- `TwistedEdwardCurve._add_ext`: extended-coordinate addition of two
distinct points. -/
def TwistedEdwardCurve._add_ext (X1 Y1 Z1 XY1 X2 Y2 Z2 XY2 q a : ℤ) :
    ℤ × ℤ × ℤ × ℤ :=
  let A := (X1 * X2) % q
  let B := (Y1 * Y2) % q
  let C := (Z1 * XY2) % q
  let D := (XY1 * Z2) % q
  let E := (D + C) % q
  let t0 := (X1 - Y1) % q
  let t1 := (X2 + Y2) % q
  let t2 := (t0 * t1) % q
  let t3 := (t2 + B) % q
  let F := (t3 - A) % q
  let t4 := (a * A) % q
  let G := (B + t4) % q
  let H := (D - C) % q
  let X3 := (E * F) % q
  let Y3 := (G * H) % q
  let XY3 := (E * H) % q
  let Z3 := (F * G) % q
  (X3, Y3, Z3, XY3)

/-- `TwistedEdwardCurve.add_point` at the level of affine pairs, with the
same equal-operand dispatch to doubling as the source. -/
def TwistedEdwardCurve.add_point (e : CurveEntry) (P Q : ℤ × ℤ) : ℤ × ℤ :=
  let q := e.field
  let a := e.a
  if P = Q then
    let (px, py, pz, pt) := TwistedEdwardCurve._aff2ext P.1 P.2 q
    let (x, y, z, t) := TwistedEdwardCurve._dbl_ext px py pz pt q a
    TwistedEdwardCurve._ext2aff x y z t q
  else
    let (px, py, pz, pt) := TwistedEdwardCurve._aff2ext P.1 P.2 q
    let (qx, qy, qz, qt) := TwistedEdwardCurve._aff2ext Q.1 Q.2 q
    let (x, y, z, t) := TwistedEdwardCurve._add_ext px py pz pt qx qy qz qt q a
    TwistedEdwardCurve._ext2aff x y z t q

/-- One iteration of the twisted-Edwards `mul_point` loop, mirroring the
two branches of the source. -/
def TwistedEdwardCurve.mul_step (q a : ℤ) (st : (ℤ × ℤ × ℤ × ℤ) × (ℤ × ℤ × ℤ × ℤ))
    (bit : Bool) : (ℤ × ℤ × ℤ × ℤ) × (ℤ × ℤ × ℤ × ℤ) :=
  match st with
  | ((x1, y1, z1, t1), (x2, y2, z2, t2)) =>
    if bit then
      (TwistedEdwardCurve._add_ext x2 y2 z2 t2 x1 y1 z1 t1 q a,
       TwistedEdwardCurve._dbl_ext x2 y2 z2 t2 q a)
    else
      (TwistedEdwardCurve._dbl_ext x1 y1 z1 t1 q a,
       TwistedEdwardCurve._add_ext x1 y1 z1 t1 x2 y2 z2 t2 q a)

/-- The `for i in range(1, sz)` loop of the twisted-Edwards `mul_point`. -/
def TwistedEdwardCurve.mul_loop (q a : ℤ) :
    List Bool → (ℤ × ℤ × ℤ × ℤ) × (ℤ × ℤ × ℤ × ℤ) → (ℤ × ℤ × ℤ × ℤ) × (ℤ × ℤ × ℤ × ℤ)
  | [], st => st
  | bit :: rest, st => TwistedEdwardCurve.mul_loop q a rest (TwistedEdwardCurve.mul_step q a st bit)

/-- Strict evaluation form of `TwistedEdwardCurve.mul_loop`. -/
def TwistedEdwardCurve.mul_loop_fast (q a : ℤ) :
    List Bool → (ℤ × ℤ × ℤ × ℤ) × (ℤ × ℤ × ℤ × ℤ) → (ℤ × ℤ × ℤ × ℤ) × (ℤ × ℤ × ℤ × ℤ)
  | [], st => st
  | bit :: rest, st =>
    match TwistedEdwardCurve.mul_step q a st bit with
    | (s1, s2) =>
      zforce4 s1 fun t1 => zforce4 s2 fun t2 =>
        TwistedEdwardCurve.mul_loop_fast q a rest (t1, t2)

theorem TwistedEdwardCurve.ed_mul_loop_fast_eq (q a : ℤ) (bits : List Bool)
    (st : (ℤ × ℤ × ℤ × ℤ) × (ℤ × ℤ × ℤ × ℤ)) :
    TwistedEdwardCurve.mul_loop_fast q a bits st = TwistedEdwardCurve.mul_loop q a bits st := by
  induction bits generalizing st with
  | nil => rfl
  | cons bit rest ih =>
    simp only [TwistedEdwardCurve.mul_loop_fast, TwistedEdwardCurve.mul_loop]
    rcases h : TwistedEdwardCurve.mul_step q a st bit with ⟨s1, s2⟩
    simp only [zforce4_eq]
    exact ih (s1, s2)

/-- `TwistedEdwardCurve.mul_point` at the level of affine pairs: the same
double-and-add loop as the Weierstrass case, in extended coordinates. -/
def TwistedEdwardCurve.mul_point (e : CurveEntry) (k : ℕ) (P : ℤ × ℤ) : ℤ × ℤ :=
  let q := e.field
  let a := e.a
  let s1 := TwistedEdwardCurve._aff2ext P.1 P.2 q
  let s2 := TwistedEdwardCurve._dbl_ext s1.1 s1.2.1 s1.2.2.1 s1.2.2.2 q a
  let fin := TwistedEdwardCurve.mul_loop q a ((pyBin k).drop 1) (s1, s2)
  TwistedEdwardCurve._ext2aff fin.1.1 fin.1.2.1 fin.1.2.2.1 fin.1.2.2.2 q

/-- Evaluation-friendly form of the twisted-Edwards `mul_point`. -/
def TwistedEdwardCurve.mul_point_fast (e : CurveEntry) (k : ℕ) (P : ℤ × ℤ) : ℤ × ℤ :=
  let q := e.field
  let a := e.a
  let s1 := TwistedEdwardCurve._aff2ext P.1 P.2 q
  let s2 := TwistedEdwardCurve._dbl_ext s1.1 s1.2.1 s1.2.2.1 s1.2.2.2 q a
  let fin := TwistedEdwardCurve.mul_loop_fast q a ((pyBin k).drop 1) (s1, s2)
  TwistedEdwardCurve._ext2aff fin.1.1 fin.1.2.1 fin.1.2.2.1 fin.1.2.2.2 q

theorem TwistedEdwardCurve.ed_mul_point_fast_eq (e : CurveEntry) (k : ℕ) (P : ℤ × ℤ) :
    TwistedEdwardCurve.mul_point e k P = TwistedEdwardCurve.mul_point_fast e k P := by
  simp only [TwistedEdwardCurve.mul_point, TwistedEdwardCurve.mul_point_fast,
    TwistedEdwardCurve.ed_mul_loop_fast_eq]

/-- `TwistedEdwardCurve.encode_point`: 32 little-endian bytes of `y` (for
Ed25519), with the parity of `x` written into the top bit of the last
byte. -/
def TwistedEdwardCurve.encode_point (size : ℕ) (P : ℤ × ℤ) : List ℕ :=
  let y := toBytesLE size P.2.toNat
  if P.1 % 2 = 1 then
    y.set (y.length - 1) (y.getD (y.length - 1) 0 ||| 0x80)
  else
    y

/-- `TwistedEdwardCurve.x_recover` for the Ed25519 branch: solve
`x² = (1-y²)/(a-d·y²)`, take the `(q+3)/8` power, correct by the fourth
root of unity `2^((q-1)/4)` when needed, then force the parity of `x` to
the requested sign. The source asserts `x² ≡ xx`; the assertion is not
modelled because it never fires on decodable inputs used here. -/
def TwistedEdwardCurve.x_recover_25519 (e : CurveEntry) (y : ℤ) (sign : ℕ) : ℤ :=
  let q := e.field
  let a := e.a
  let d := e.d
  let sign' : ℤ := if sign ≠ 0 then 1 else 0
  let yy := (y * y) % q
  let u := (1 - yy) % q
  let v := powMod (a - d * yy) (q - 2).toNat q
  let xx := (u * v) % q
  let x := powMod xx ((q + 3) / 8).toNat q
  let x := if (x * x - xx) % q ≠ 0 then (x * powMod 2 ((q - 1) / 4).toNat q) % q else x
  if x % 2 ≠ sign' then q - x else x

/-- `TwistedEdwardCurve.decode_point` for Ed25519: split the sign bit off
the top of the last byte, read `y` little-endian, recover `x`. -/
def TwistedEdwardCurve.decode_point (e : CurveEntry) (eP : List ℕ) : ℤ × ℤ :=
  let last := eP.length - 1
  let sign := eP.getD last 0 &&& 0x80
  let y' := eP.set last (eP.getD last 0 &&& 0x7F)
  let y : ℤ := fromBytesLE y'
  (TwistedEdwardCurve.x_recover_25519 e y sign, y)

/-- `MontgomeryCurve` precomputed `a24 = (a+2)//4` (exact for the
registered curves, where `a+2` is divisible by 4 and positive, so Python's
floor division agrees with `Int.div`). -/
def MontgomeryCurve.a24 (e : CurveEntry) : ℤ :=
  (e.a + 2) / 4

/-- `MontgomeryCurve._ladder_step`: one step of the RFC 7748 ladder,
returning `(x_2p, z_2p, x_pq, z_pq)`. -/
def MontgomeryCurve._ladder_step (e : CurveEntry) (x_qp x_p z_p x_q z_q : ℤ) :
    ℤ × ℤ × ℤ × ℤ :=
  let p := e.field
  let t1 := (x_p + z_p) % p
  let t6 := (t1 * t1) % p
  let t2 := (x_p - z_p) % p
  let t7 := (t2 * t2) % p
  let t5 := (t6 - t7) % p
  let t3 := (x_q + z_q) % p
  let t4 := (x_q - z_q) % p
  let t8 := (t4 * t1) % p
  let t9 := (t3 * t2) % p
  let x_pq := ((t8 + t9) * (t8 + t9)) % p
  let z_pq := (x_qp * (t8 - t9) * (t8 - t9)) % p
  let x_2p := (t6 * t7) % p % p
  let z_2p := (t5 * (t7 + MontgomeryCurve.a24 e * t5)) % p
  (x_2p, z_2p, x_pq, z_pq)

/-- One iteration of the Montgomery ladder loop, including the swap of the
two projective pairs on a `1` bit (the tuple state is `(x2, z2, x3, z3)`). -/
def MontgomeryCurve.mul_step (e : CurveEntry) (x1 : ℤ) (st : ℤ × ℤ × ℤ × ℤ)
    (bit : Bool) : ℤ × ℤ × ℤ × ℤ :=
  match st with
  | (x2, z2, x3, z3) =>
    if bit then
      match MontgomeryCurve._ladder_step e x1 x3 z3 x2 z2 with
      | (a1, a2, a3, a4) => (a3, a4, a1, a2)
    else
      MontgomeryCurve._ladder_step e x1 x2 z2 x3 z3

/-- The `for i in range(0, sz)` ladder loop of `_mul_point_x`. -/
def MontgomeryCurve.mul_loop (e : CurveEntry) (x1 : ℤ) :
    List Bool → ℤ × ℤ × ℤ × ℤ → ℤ × ℤ × ℤ × ℤ
  | [], st => st
  | bit :: rest, st => MontgomeryCurve.mul_loop e x1 rest (MontgomeryCurve.mul_step e x1 st bit)

/-- Strict evaluation form of `MontgomeryCurve.mul_loop`. -/
def MontgomeryCurve.mul_loop_fast (e : CurveEntry) (x1 : ℤ) :
    List Bool → ℤ × ℤ × ℤ × ℤ → ℤ × ℤ × ℤ × ℤ
  | [], st => st
  | bit :: rest, st =>
    zforce4 (MontgomeryCurve.mul_step e x1 st bit) fun t =>
      MontgomeryCurve.mul_loop_fast e x1 rest t

theorem MontgomeryCurve.mt_mul_loop_fast_eq (e : CurveEntry) (x1 : ℤ) (bits : List Bool)
    (st : ℤ × ℤ × ℤ × ℤ) :
    MontgomeryCurve.mul_loop_fast e x1 bits st = MontgomeryCurve.mul_loop e x1 bits st := by
  induction bits generalizing st with
  | nil => rfl
  | cons bit rest ih =>
    simp only [MontgomeryCurve.mul_loop_fast, MontgomeryCurve.mul_loop, zforce4_eq]
    exact ih _

/-- `MontgomeryCurve._mul_point_x`: the full ladder over every bit of
`bin(k)[2:]`, followed by the final inversion of `z2`. -/
def MontgomeryCurve._mul_point_x (e : CurveEntry) (k : ℕ) (u : ℤ) : ℤ :=
  let x1 := u
  let fin := MontgomeryCurve.mul_loop e x1 (pyBin k) ((1 : ℤ), (0 : ℤ), u, (1 : ℤ))
  let p := e.field
  let zinv := powMod fin.2.1 (p - 2).toNat p
  (fin.1 * zinv) % p

/-- Evaluation-friendly form of `_mul_point_x`. -/
def MontgomeryCurve._mul_point_x_fast (e : CurveEntry) (k : ℕ) (u : ℤ) : ℤ :=
  let x1 := u
  let fin := MontgomeryCurve.mul_loop_fast e x1 (pyBin k) ((1 : ℤ), (0 : ℤ), u, (1 : ℤ))
  let p := e.field
  let zinv := powMod fin.2.1 (p - 2).toNat p
  (fin.1 * zinv) % p

theorem MontgomeryCurve._mul_point_x_fast_eq (e : CurveEntry) (k : ℕ) (u : ℤ) :
    MontgomeryCurve._mul_point_x e k u = MontgomeryCurve._mul_point_x_fast e k u := by
  simp only [MontgomeryCurve._mul_point_x, MontgomeryCurve._mul_point_x_fast,
    MontgomeryCurve.mt_mul_loop_fast_eq]

/-- `MontgomeryCurve.encode_point`: the `x` coordinate as `size/8`
little-endian bytes. -/
def MontgomeryCurve.encode_point (e : CurveEntry) (x : ℤ) : List ℕ :=
  toBytesLE (e.size >>> 3) x.toNat

/-- `MontgomeryCurve.decode_point`: clear the top bit of the last byte
(Python `x[len-1] &= ~0x80`, i.e. `& 0x7F` on a byte), read little-endian. -/
def MontgomeryCurve.decode_point (_e : CurveEntry) (eP : List ℕ) : ℤ :=
  let last := eP.length - 1
  let x := eP.set last (eP.getD last 0 &&& 0x7F)
  (fromBytesLE x : ℕ)

/-- `decode_scalar_25519`: clamp byte 0 and byte 31 of a little-endian
scalar and read it as an integer; indexing a byte string shorter than 32
raises `IndexError` (modelled as `none`). -/
def decode_scalar_25519 (k : List ℕ) : Option ℕ :=
  if 32 ≤ k.length then
    let k1 := k.set 0 (k.getD 0 0 &&& 0xF8)
    let k2 := k1.set 31 ((k1.getD 31 0 &&& 0x7F) ||| 0x40)
    some (fromBytesLE k2)
  else
    none

/-- `encode_scalar_25519`: the source computes `k.to_bytes(32,'little')`
but discards the result, then runs `bytearray(k)` on the original integer
`k` — which in Python builds `k` zero bytes — and clamps that. The
discarded conversion still raises `OverflowError` for `k ≥ 2^256`, and the
clamp's write to index 31 raises `IndexError` for `k < 32` (both modelled
as `none`). -/
def encode_scalar_25519 (k : ℕ) : Option (List ℕ) :=
  if k < 2 ^ 256 then
    let b := List.replicate k 0
    if 32 ≤ k then
      let b1 := b.set 0 (b.getD 0 0 &&& 0xF8)
      let b2 := b1.set 31 ((b1.getD 31 0 &&& 0x7F) ||| 0x40)
      some b2
    else
      none
  else
    none

/-! ## SHA-512

The signers call the host's `hashlib.sha512`; the library itself does not
implement it. The function is modelled here directly from FIPS 180-4
(64-bit words as naturals reduced mod `2^64`); the fixed test vectors of
the claims double as validation of this model. `sforce` keeps kernel
evaluation strict. -/

def K512 : List ℕ := List.flatten [
  [0x428a2f98d728ae22, 0x7137449123ef65cd, 0xb5c0fbcfec4d3b2f, 0xe9b5dba58189dbbc,
   0x3956c25bf348b538, 0x59f111f1b605d019, 0x923f82a4af194f9b, 0xab1c5ed5da6d8118],
  [0xd807aa98a3030242, 0x12835b0145706fbe, 0x243185be4ee4b28c, 0x550c7dc3d5ffb4e2,
   0x72be5d74f27b896f, 0x80deb1fe3b1696b1, 0x9bdc06a725c71235, 0xc19bf174cf692694],
  [0xe49b69c19ef14ad2, 0xefbe4786384f25e3, 0xfc19dc68b8cd5b5, 0x240ca1cc77ac9c65,
   0x2de92c6f592b0275, 0x4a7484aa6ea6e483, 0x5cb0a9dcbd41fbd4, 0x76f988da831153b5],
  [0x983e5152ee66dfab, 0xa831c66d2db43210, 0xb00327c898fb213f, 0xbf597fc7beef0ee4,
   0xc6e00bf33da88fc2, 0xd5a79147930aa725, 0x6ca6351e003826f, 0x142929670a0e6e70],
  [0x27b70a8546d22ffc, 0x2e1b21385c26c926, 0x4d2c6dfc5ac42aed, 0x53380d139d95b3df,
   0x650a73548baf63de, 0x766a0abb3c77b2a8, 0x81c2c92e47edaee6, 0x92722c851482353b],
  [0xa2bfe8a14cf10364, 0xa81a664bbc423001, 0xc24b8b70d0f89791, 0xc76c51a30654be30,
   0xd192e819d6ef5218, 0xd69906245565a910, 0xf40e35855771202a, 0x106aa07032bbd1b8],
  [0x19a4c116b8d2d0c8, 0x1e376c085141ab53, 0x2748774cdf8eeb99, 0x34b0bcb5e19b48a8,
   0x391c0cb3c5c95a63, 0x4ed8aa4ae3418acb, 0x5b9cca4f7763e373, 0x682e6ff3d6b2b8a3],
  [0x748f82ee5defb2fc, 0x78a5636f43172f60, 0x84c87814a1f0ab72, 0x8cc702081a6439ec,
   0x90befffa23631e28, 0xa4506cebde82bde9, 0xbef9a3f7b2c67915, 0xc67178f2e372532b],
  [0xca273eceea26619c, 0xd186b8c721c0c207, 0xeada7dd6cde0eb1e, 0xf57d4f7fee6ed178,
   0x6f067aa72176fba, 0xa637dc5a2c898a6, 0x113f9804bef90dae, 0x1b710b35131c471b],
  [0x28db77f523047d84, 0x32caab7b40c72493, 0x3c9ebe0a15c9bebc, 0x431d67c49c100d4c,
   0x4cc5d4becb3e42b6, 0x597f299cfc657e2a, 0x5fcb6fab3ad6faec, 0x6c44198c4a475817]]

def H512 : List ℕ := [
  0x6a09e667f3bcc908, 0xbb67ae8584caa73b, 0x3c6ef372fe94f82b, 0xa54ff53a5f1d36f1,
  0x510e527fade682d1, 0x9b05688c2b3e6c1f, 0x1f83d9abfb41bd6b, 0x5be0cd19137e2179]

/-- Rotate a 64-bit word right by `n`. -/
def rotr64 (x n : ℕ) : ℕ :=
  ((x >>> n) ||| (x <<< (64 - n))) % 2 ^ 64

/-- Split a list into chunks of `sz` elements (fuel = list length). -/
def chunksAux (sz : ℕ) : (fuel : ℕ) → List ℕ → List (List ℕ)
  | 0, _ => []
  | _ + 1, [] => []
  | fuel + 1, l => l.take sz :: chunksAux sz fuel (l.drop sz)

/-- Split a byte list into chunks of `sz` bytes. -/
def chunks (sz : ℕ) (l : List ℕ) : List (List ℕ) :=
  chunksAux sz l.length l

/-- The eight-word working state of a SHA-512 compression. -/
structure Sha512State where
  a : ℕ
  b : ℕ
  c : ℕ
  d : ℕ
  e : ℕ
  f : ℕ
  g : ℕ
  h : ℕ
deriving DecidableEq

/-- Strictness helper for a SHA-512 state. -/
def sha512force {α : Type} (s : Sha512State) (k : Sha512State → α) : α :=
  sforce s.a fun a => sforce s.b fun b => sforce s.c fun c => sforce s.d fun d =>
  sforce s.e fun e => sforce s.f fun f => sforce s.g fun g => sforce s.h fun h =>
  k ⟨a, b, c, d, e, f, g, h⟩

/-- Message-schedule extension: append `64` words, each combining four
earlier words with the small sigma functions. -/
def sha512SchedLoop : ℕ → List ℕ → List ℕ
  | 0, w => w
  | t + 1, w =>
    let s1 := rotr64 (w.getD (w.length - 2) 0) 19 ^^^ rotr64 (w.getD (w.length - 2) 0) 61
                ^^^ (w.getD (w.length - 2) 0 >>> 6)
    let s0 := rotr64 (w.getD (w.length - 15) 0) 1 ^^^ rotr64 (w.getD (w.length - 15) 0) 8
                ^^^ (w.getD (w.length - 15) 0 >>> 7)
    sforce ((s1 + w.getD (w.length - 7) 0 + s0 + w.getD (w.length - 16) 0) % 2 ^ 64)
      fun v => sha512SchedLoop t (w ++ [v])

/-- One SHA-512 round for the pair `(K_t, W_t)`. -/
def sha512Round (st : Sha512State) (kw : ℕ × ℕ) : Sha512State :=
  let S1 := rotr64 st.e 14 ^^^ rotr64 st.e 18 ^^^ rotr64 st.e 41
  let ch := (st.e &&& st.f) ^^^ ((st.e ^^^ 0xFFFFFFFFFFFFFFFF) &&& st.g)
  let T1 := (st.h + S1 + ch + kw.1 + kw.2) % 2 ^ 64
  let S0 := rotr64 st.a 28 ^^^ rotr64 st.a 34 ^^^ rotr64 st.a 39
  let maj := (st.a &&& st.b) ^^^ (st.a &&& st.c) ^^^ (st.b &&& st.c)
  let T2 := (S0 + maj) % 2 ^ 64
  ⟨(T1 + T2) % 2 ^ 64, st.a, st.b, st.c, (st.d + T1) % 2 ^ 64, st.e, st.f, st.g⟩

/-- The 80 compression rounds (strict). -/
def sha512Rounds : List (ℕ × ℕ) → Sha512State → Sha512State
  | [], st => st
  | kw :: rest, st => sha512force (sha512Round st kw) fun st' => sha512Rounds rest st'

/-- Compress one 128-byte block into the running state. -/
def sha512Block (H : Sha512State) (block : List ℕ) : Sha512State :=
  let w0 := (chunks 8 block).map fromBytesBE
  let w := sha512SchedLoop 64 w0
  let fin := sha512Rounds (K512.zip w) H
  sha512force fin fun fin =>
    ⟨(H.a + fin.a) % 2 ^ 64, (H.b + fin.b) % 2 ^ 64, (H.c + fin.c) % 2 ^ 64,
     (H.d + fin.d) % 2 ^ 64, (H.e + fin.e) % 2 ^ 64, (H.f + fin.f) % 2 ^ 64,
     (H.g + fin.g) % 2 ^ 64, (H.h + fin.h) % 2 ^ 64⟩

/-- Iterate `sha512Block` over all blocks. -/
def sha512Blocks : List (List ℕ) → Sha512State → Sha512State
  | [], H => H
  | b :: rest, H => sha512Blocks rest (sha512Block H b)

/-- SHA-512 of a byte list: pad to a multiple of 128 bytes with `0x80`,
zeros and the 16-byte big-endian bit length, then compress. -/
def sha512 (msg : List ℕ) : List ℕ :=
  let l := msg.length
  let padlen := (128 - (l + 17) % 128) % 128
  let padded := msg ++ [0x80] ++ List.replicate padlen 0 ++ toBytesBE 16 (8 * l)
  let H0 : Sha512State :=
    ⟨H512.getD 0 0, H512.getD 1 0, H512.getD 2 0, H512.getD 3 0,
     H512.getD 4 0, H512.getD 5 0, H512.getD 6 0, H512.getD 7 0⟩
  let fin := sha512Blocks (chunks 128 padded) H0
  toBytesBE 8 fin.a ++ toBytesBE 8 fin.b ++ toBytesBE 8 fin.c ++ toBytesBE 8 fin.d ++
  toBytesBE 8 fin.e ++ toBytesBE 8 fin.f ++ toBytesBE 8 fin.g ++ toBytesBE 8 fin.h

/-! ## Signature formatters (`ecpy/formatters.py`)

Only the DER and EDDSA branches of `encode_sig`/`decode_sig` are used by
the claims; each branch is embedded as its own function. -/

/-- Python `n.bit_length()`: the length of the binary expansion, `0` for
`n = 0`. -/
def bit_length (n : ℕ) : ℕ :=
  (bitsLEAux n n).length

/-- The DER-encoded magnitude of one `INTEGER`:
`v.to_bytes((v.bit_length()+7)//8, 'big')`, prefixed with `0x00` when the
top bit of the leading byte is set. (For `v = 0` the Python code would
raise `IndexError` on the empty byte string; the signers only ever encode
values in `[1, n-1]`.) -/
def derIntBytes (v : ℕ) : List ℕ :=
  if (toBytesBE ((bit_length v + 7) / 8) v).getD 0 0 &&& 0x80 == 0x80 then
    0 :: toBytesBE ((bit_length v + 7) / 8) v
  else
    toBytesBE ((bit_length v + 7) / 8) v

/-- The DER branch of `encode_sig`: minimal big-endian magnitudes wrapped
in single-byte-length `INTEGER`s inside a single-byte-length `SEQUENCE`. -/
def encode_sig_DER (r s : ℕ) : List ℕ :=
  let rb := derIntBytes r
  let sb := derIntBytes s
  0x30 :: (rb.length + sb.length + 4) :: 0x02 :: rb.length :: rb
    ++ 0x02 :: sb.length :: sb

/-- The Python slice `sig[a:b]` (for `0 ≤ a ≤ b`). -/
def pySlice (l : List ℕ) (a b : ℕ) : List ℕ :=
  (l.drop a).take (b - a)

/-- The DER branch of `decode_sig`. The source reads `sig[1]`, `sig[3]` and
`sig[4+r_len+1]` before any validation, so short inputs raise `IndexError`
(modelled by the outer `none`); a failed tag/length validation returns the
pair `(None, None)` (modelled by `some none`); success returns
`some (some (r, s))`. -/
def decode_sig_DER (sig : List ℕ) : Option (Option (ℕ × ℕ)) :=
  match sig[1]? with
  | none => none
  | some b1 =>
  match sig[3]? with
  | none => none
  | some r_len =>
  match sig[4 + r_len + 1]? with
  | none => none
  | some s_len =>
    let sig_len := b1 + 2
    let r_offset := 4
    let s_offset := 4 + r_len + 2
    if sig.getD 0 0 ≠ 0x30 ∨ sig_len ≠ r_len + s_len + 6
        ∨ sig.getD (r_offset - 2) 0 ≠ 0x02 ∨ sig.getD (s_offset - 2) 0 ≠ 0x02 then
      some none
    else
      some (some (fromBytesBE (pySlice sig r_offset (r_offset + r_len)),
                  fromBytesBE (pySlice sig s_offset (s_offset + s_len))))

/-- The EDDSA branch of `encode_sig`: fixed-width little-endian `r ‖ s`. -/
def encode_sig_EDDSA (r s size : ℕ) : List ℕ :=
  toBytesLE size r ++ toBytesLE size s

/-- The EDDSA branch of `decode_sig`: split at the midpoint, little-endian. -/
def decode_sig_EDDSA (sig : List ℕ) : ℕ × ℕ :=
  let l := sig.length >>> 1
  (fromBytesLE (pySlice sig 0 l), fromBytesLE (sig.drop l))

/-! ## EdDSA (`ecpy/eddsa.py`)

`ECPrivateKey`/`ECPublicKey` (from the `ecpy.keys` module, not part of the
sources here; per the specification they are thin value wrappers) only
carry the scalar `d` resp. the point `W` and the curve, so the functions
below take those directly. The hasher is fixed to SHA-512 and the wire
format to "EDDSA", the configuration exercised by the claims. -/

/-- `TwistedEdwardCurve._coord_size`: 32 bytes for Ed25519, 57 for Ed448. -/
def TwistedEdwardCurve._coord_size (e : CurveEntry) : ℕ :=
  if e.name = "Ed25519" then 32 else 57

/-- `EDDSA.get_interal_private_key` (sic): hash the fixed-width big-endian
private scalar, clamp the low 32 bytes of the digest, read little-endian. -/
def EDDSA.get_interal_private_key (e : CurveEntry) (d : ℕ) : ℕ :=
  let size := e.size >>> 3
  let k := toBytesBE size d
  let h := sha512 k
  let a := h.take 32
  let a := a.set 0 (a.getD 0 0 &&& 0xF8)
  let a := a.set 31 ((a.getD 31 0 &&& 0x7F) ||| 0x40)
  fromBytesLE a

/-- `EDDSA.get_public_key`: `A = a · generator` for the derived internal
scalar `a`. -/
def EDDSA.get_public_key (e : CurveEntry) (d : ℕ) : ℤ × ℤ :=
  let a := EDDSA.get_interal_private_key e d
  TwistedEdwardCurve.mul_point e a (e.gx, e.gy)

/-- `EDDSA._do_sign` under SHA-512 and the "EDDSA" format: re-derive the
clamped scalar `a` and `A = a·B`, the nonce `r` from the upper half of the
key digest and the message, `R = r·B`, the challenge from
`enc(R) ‖ enc(A) ‖ msg`, and `S = (r + challenge·a) mod n`. -/
def EDDSA._do_sign (e : CurveEntry) (msg : List ℕ) (d : ℕ) : List ℕ :=
  let B := (e.gx, e.gy)
  let n := e.order.toNat
  let size := e.size >>> 3
  let k := toBytesBE size d
  let h := sha512 k
  let a := h.take 32
  let a := a.set 0 (a.getD 0 0 &&& 0xF8)
  let a := a.set 31 ((a.getD 31 0 &&& 0x7F) ||| 0x40)
  let a := fromBytesLE a
  let A := TwistedEdwardCurve.mul_point e a B
  let eA := TwistedEdwardCurve.encode_point (TwistedEdwardCurve._coord_size e) A
  let r := fromBytesLE (sha512 (h.drop size ++ msg)) % n
  let R := TwistedEdwardCurve.mul_point e r B
  let eR := TwistedEdwardCurve.encode_point (TwistedEdwardCurve._coord_size e) R
  let i := fromBytesLE (sha512 (eR ++ eA ++ msg))
  let S := (r + i * a) % n
  let eRi := fromBytesLE eR
  encode_sig_EDDSA eRi S size

/-- `EDDSA.sign` delegates to `_do_sign`. -/
def EDDSA.sign (e : CurveEntry) (msg : List ℕ) (d : ℕ) : List ℕ :=
  EDDSA._do_sign e msg d

/-- `EDDSA.verify`: decode the signature, decode `R`, recompute the
challenge hash, and compare `R + h·W` against `S·B`. -/
def EDDSA.verify (e : CurveEntry) (msg sig : List ℕ) (W : ℤ × ℤ) : Bool :=
  let n := e.order.toNat
  let size := e.size >>> 3
  let (eR, S) := decode_sig_EDDSA sig
  let eRb := toBytesLE size eR
  let R := TwistedEdwardCurve.decode_point e eRb
  let eA := TwistedEdwardCurve.encode_point (TwistedEdwardCurve._coord_size e) W
  let h := fromBytesLE (sha512 (eRb ++ eA ++ msg)) % n
  let left := TwistedEdwardCurve.add_point e R (TwistedEdwardCurve.mul_point e h W)
  let right := TwistedEdwardCurve.mul_point e S (e.gx, e.gy)
  left == right

/-! ## EC-Schnorr (`ecpy/ecschnorr.py`)

Only `verify` is claim-relevant. Its point pipeline can raise: the scalar
multiplications construct checked `Point`s, the addition may produce the
invalid Jacobian triple `Z = 0` (affine `(0,0)`, a `Point` with no
coordinate attributes), and `(Q.x % n).to_bytes(size,'big')` may overflow,
so the embedding threads `PRes`. -/

/-- Python `v.to_bytes(len, 'big')` with its `OverflowError` check. -/
def to_bytes_checked (len : ℕ) (v : ℤ) : PRes (List ℕ) :=
  if 0 ≤ v ∧ v < 2 ^ (8 * len) then .ok (toBytesBE len v.toNat) else .exn "OverflowError"

/-- `k * P` on a Weierstrass curve at the `Point` level: read the operand's
coordinates (raising `AttributeError` when unset), run `mul_point`, then
construct the checked result `Point`. -/
def w_mul_point_py (e : CurveEntry) (k : ℕ) (P : PyPoint) : PRes PyPoint :=
  PRes.bind P.getx fun x =>
  PRes.bind P.gety fun y =>
  let r := WeierstrassCurve.mul_point e k (x, y)
  point_init e (some r.1) (some r.2) true

/-- `P + Q` on a Weierstrass curve at the `Point` level: `add_point` first
compares `P == Q` (reading all coordinates) and dispatches to doubling or
Jacobian addition, then constructs the checked result `Point`. -/
def w_add_point_py (e : CurveEntry) (P Q : PyPoint) : PRes PyPoint :=
  PRes.bind P.getx fun px =>
  PRes.bind Q.getx fun qx =>
  PRes.bind P.gety fun py =>
  PRes.bind Q.gety fun qy =>
  let r := WeierstrassCurve.add_point e (px, py) (qx, qy)
  point_init e (some r.1) (some r.2) true

set_option linter.unusedVariables false in
/-- `ECSchnorr.verify` with hasher `H` and the default "DER" format: decode
`(r,s)`, reject out-of-range values, compute `Q = s*G + r*W` and
`v = H(xQ ‖ msg)` — and then overwrite `v` with `r % n` before the final
comparison, exactly as the source does. -/
def ECSchnorr.verify (e : CurveEntry) (H : List ℕ → List ℕ) (msg : List ℕ)
    (W : PyPoint) (sig : List ℕ) : PRes Bool :=
  let n := e.order
  let size := e.size >>> 3
  match decode_sig_DER sig with
  | none => .exn "IndexError"
  | some none => .ok false
  | some (some (r, s)) =>
    if (r : ℤ) > 2 ^ (size * 8) - 1 ∨ (s : ℤ) = 0 ∨ (s : ℤ) > n - 1 then .ok false
    else
      PRes.bind (w_mul_point_py e s ⟨some e.gx, some e.gy⟩) fun sG =>
      PRes.bind (w_mul_point_py e r W) fun rW =>
      PRes.bind (w_add_point_py e sG rW) fun Q =>
      PRes.bind Q.getx fun qx =>
      PRes.bind (to_bytes_checked size (qx % n)) fun xQ =>
      let v := fromBytesBE (H (xQ ++ msg))
      let v := (r : ℤ) % n
      .ok (decide (v = (r : ℤ)))

/-- Fallback entry used only to total-ise lookups of known-present names. -/
def dummyEntry : CurveEntry :=
  { name := "", ctype := .WEIERSTRASS, size := 0, field := 0, gx := 0, gy := 0,
    order := 0, cofactor := 0, a := 0, b := 0, d := 0 }

/-- The `secp256k1` entry of the registry. -/
def secp256k1 : CurveEntry :=
  (curves.find? (fun c => c.name == "secp256k1")).getD dummyEntry

/-- The `Ed25519` entry of the registry. -/
def Ed25519 : CurveEntry :=
  (curves.find? (fun c => c.name == "Ed25519")).getD dummyEntry

/-- The `Curve25519` entry of the registry. -/
def Curve25519 : CurveEntry :=
  (curves.find? (fun c => c.name == "Curve25519")).getD dummyEntry

/-! ## Claim theorems -/

set_option maxRecDepth 1000000 in
/-- C1 (counterexample): the claim says that for every message, every
public key on a registered curve and every DER signature decoding to an
in-range pair `(r, s)`, `ECSchnorr.verify` returns `True` exactly when
`r mod n = r`. It does not: with the secp256k1 generator as public key,
`s = 1` and `r = n - 1` (all range checks passing and `r mod n = r`), the
point sum `s·G + r·W` hits the `P = -Q` singularity of the Jacobian
addition, which yields the affine pair `(0,0)`; the `Point` constructor
treats the zero coordinates as absent, so `Q.x` raises `AttributeError`
instead of `verify` returning `True`. -/
theorem C1_counterexample :
    decode_sig_DER (encode_sig_DER
        0xfffffffffffffffffffffffffffffffebaaedce6af48a03bbfd25e8cd0364140 1)
      = some (some (0xfffffffffffffffffffffffffffffffebaaedce6af48a03bbfd25e8cd0364140, 1)) ∧
    (0xfffffffffffffffffffffffffffffffebaaedce6af48a03bbfd25e8cd0364140 : ℤ) % secp256k1.order
      = 0xfffffffffffffffffffffffffffffffebaaedce6af48a03bbfd25e8cd0364140 ∧
    ECSchnorr.verify secp256k1 (fun _ => []) [] ⟨some secp256k1.gx, some secp256k1.gy⟩
        (encode_sig_DER 0xfffffffffffffffffffffffffffffffebaaedce6af48a03bbfd25e8cd0364140 1)
      = .exn "AttributeError" := by
  refine ⟨by decide, by decide, ?_⟩
  simp only [ECSchnorr.verify, w_mul_point_py, WeierstrassCurve.w_mul_point_fast_eq]
  decide

/-- C1 (amended): for every hasher, message, public key and DER signature
decoding to `(r, s)`, `ECSchnorr.verify` returns `True` exactly when the
range checks pass (`r ≤ 2^(8·size) - 1`, `s ≠ 0`, `s ≤ n - 1`),
`r mod n = r`, and the verification does not raise an exception — the
computed hash `v` is overwritten with `r mod n`, so the result never
depends on the hasher, the message or the public key; out-of-range pairs
return `False`. -/
theorem C1_theorem (e : CurveEntry) (H : List ℕ → List ℕ) (msg : List ℕ)
    (W : PyPoint) (sig : List ℕ) (r s : ℕ)
    (hdec : decode_sig_DER sig = some (some (r, s))) :
    ECSchnorr.verify e H msg W sig = .ok true ↔
      ((r : ℤ) ≤ (2 : ℤ) ^ ((e.size >>> 3) * 8) - 1 ∧ (s : ℤ) ≠ 0 ∧ (s : ℤ) ≤ e.order - 1 ∧
       (r : ℤ) % e.order = (r : ℤ) ∧
       (ECSchnorr.verify e H msg W sig).isExn = false) := by
  simp only [ECSchnorr.verify, hdec]
  split_ifs with hc
  · simp only [PRes.isExn]
    constructor
    · intro h; cases h
    · rintro ⟨h1, h2, h3, -, -⟩
      exfalso
      rcases hc with h | h | h <;> omega
  · push_neg at hc
    obtain ⟨h1, h2, h3⟩ := hc
    cases hsG : w_mul_point_py e s ⟨some e.gx, some e.gy⟩ with
    | exn m => simp [hsG, PRes.bind, PRes.isExn]
    | ok sG =>
      simp only [hsG, PRes.bind]
      cases hrW : w_mul_point_py e r W with
      | exn m => simp [hrW, PRes.bind, PRes.isExn]
      | ok rW =>
        simp only [hrW, PRes.bind]
        cases hQ : w_add_point_py e sG rW with
        | exn m => simp [hQ, PRes.bind, PRes.isExn]
        | ok Q =>
          simp only [hQ, PRes.bind]
          cases hqx : Q.getx with
          | exn m => simp [hqx, PRes.bind, PRes.isExn]
          | ok qx =>
            simp only [hqx, PRes.bind]
            cases hxQ : to_bytes_checked (e.size >>> 3) (qx % e.order) with
            | exn m => simp [hxQ, PRes.bind, PRes.isExn]
            | ok xQ =>
              simp only [hxQ, PRes.bind, PRes.isExn]
              constructor
              · intro h
                have hd : decide ((r : ℤ) % e.order = (r : ℤ)) = true := by
                  cases h' : decide ((r : ℤ) % e.order = (r : ℤ)) with
                  | true => rfl
                  | false => rw [h'] at h; cases h
                exact ⟨h1, h2, h3, of_decide_eq_true hd, trivial⟩
              · rintro ⟨-, -, -, hmod, -⟩
                rw [decide_eq_true hmod]

set_option maxRecDepth 1000000 in
/-- C1 (witness): on secp256k1 with the generator as public key, the DER
signature `(r, s) = (1, 1)` — chosen so that `s·G + r·W` is non-singular —
verifies successfully even under a hasher that returns the empty digest for
every input. -/
theorem C1_witness :
    ECSchnorr.verify secp256k1 (fun _ => []) [] ⟨some secp256k1.gx, some secp256k1.gy⟩
      (encode_sig_DER 1 1) = .ok true :=
  (C1_theorem secp256k1 (fun _ => []) [] ⟨some secp256k1.gx, some secp256k1.gy⟩
      (encode_sig_DER 1 1) 1 1 (by decide)).mpr
    ⟨by decide, by decide, by decide, by decide, by decide⟩

/-- C2: the claim says that for every registered curve name,
`get_curve(name)` returns a curve whose `name` matches and whose generator
satisfies `is_on_curve`. This holds for all names except
`Brainpool-p224t1`: that entry's `field` constant does not belong to the
Brainpool standard, its generator fails the curve equation modulo that
field, and `get_curve` raises `ECPyException` while constructing the
generator `Point` instead of returning a curve. -/
theorem C2_theorem :
    ("Brainpool-p224t1" ∈ get_curve_names ∧
     get_curve "Brainpool-p224t1" = GetCurveResult.raised "ECPyException" ∧
     round_trip_ok "Brainpool-p224t1" = false) ∧
    (∀ name ∈ get_curve_names, name ≠ "Brainpool-p224t1" → round_trip_ok name = true) :=
  ⟨⟨by decide, by decide, by decide⟩, by decide⟩

set_option maxRecDepth 1000000 in
/-- C3: on secp256k1, `add_point` maps the fixed pair `(W1, W2)` to the
expected sum, `add_point(W2, W2)` (dispatched to doubling) to the expected
double, and `mul_point` with the fixed 256-bit scalar `k` maps `W1` to the
expected product — the three golden vectors of the module self-test. -/
theorem C3_theorem :
    WeierstrassCurve.add_point secp256k1
        (0x6fb13b7e8ab1c7d191d16197c1bf7f8dc7992412e1266155b3fb3ac8b30f3ed8,
         0x2e1eb77bd89505113819600b395e0475d102c4788a3280a583d9d82625ed8533)
        (0x07cd9ee748a0b26773d9d29361f75594964106d13e1cad67cfe2df503ee3e90e,
         0xd209f7c16cdb6d3559bea88c7d920f8ff077406c615da8adfecdeef604cb40a6)
      = (0xc4a20cbc2dc27c70fbc1335292c109a1ccd106981b5698feafe702bcb0fb2fca,
         0x7e1ad514051b87b7ce815c7defcd4fcc01e88842b3135e10a342be49bf5cad09) ∧
    WeierstrassCurve.add_point secp256k1
        (0x07cd9ee748a0b26773d9d29361f75594964106d13e1cad67cfe2df503ee3e90e,
         0xd209f7c16cdb6d3559bea88c7d920f8ff077406c615da8adfecdeef604cb40a6)
        (0x07cd9ee748a0b26773d9d29361f75594964106d13e1cad67cfe2df503ee3e90e,
         0xd209f7c16cdb6d3559bea88c7d920f8ff077406c615da8adfecdeef604cb40a6)
      = (0xb4f211b11166e6b3a3561e5978f47855787943dbeccd2014706c941a5890c913,
         0xe0122dc6f3ce097eb73865e66a1ced02a518afdec02596d7d152f121391e2d63) ∧
    WeierstrassCurve.mul_point secp256k1
        0x2976F786AE6333E125C0DFFD6C16D37E8CED5ABEDB491BCCA21C75B307D0B318
        (0x6fb13b7e8ab1c7d191d16197c1bf7f8dc7992412e1266155b3fb3ac8b30f3ed8,
         0x2e1eb77bd89505113819600b395e0475d102c4788a3280a583d9d82625ed8533)
      = (0x1de93c28f8c58db95f30be1704394f6f5d4602291c4933a1126cc61f9ed70b88,
         0x6f66df7bb6b37609cacded3052e1d127b47684949dff366020f824d517d66f34) := by
  refine ⟨by decide, by decide, ?_⟩
  rw [WeierstrassCurve.w_mul_point_fast_eq]
  decide

theorem powMod_one_base (eexp : ℕ) (q : ℤ) (hq : 1 < q) : powMod 1 eexp q = 1 := by
  rw [powMod_spec, one_pow]
  exact Int.emod_eq_of_lt (by omega) (by omega)

theorem jac2aff_id (x y q : ℤ) (hq : 1 < q)
    (hx0 : 0 ≤ x) (hx : x < q) (hy0 : 0 ≤ y) (hy : y < q) :
    WeierstrassCurve._jac2aff x y 1 q = (x, y) := by
  have hone : (1 : ℤ) % q = 1 := Int.emod_eq_of_lt (by omega) (by omega)
  simp only [WeierstrassCurve._jac2aff, powMod_one_base _ _ hq, one_mul, mul_one, hone]
  rw [Int.emod_eq_of_lt hx0 hx, Int.emod_eq_of_lt hy0 hy]

theorem ext2aff_id (x y t q : ℤ) (hq : 1 < q)
    (hx0 : 0 ≤ x) (hx : x < q) (hy0 : 0 ≤ y) (hy : y < q) :
    TwistedEdwardCurve._ext2aff x y 1 t q = (x, y) := by
  have hone : (1 : ℤ) % q = 1 := Int.emod_eq_of_lt (by omega) (by omega)
  simp only [TwistedEdwardCurve._ext2aff, powMod_one_base _ _ hq, one_mul, mul_one, hone]
  rw [Int.emod_eq_of_lt hx0 hx, Int.emod_eq_of_lt hy0 hy]

/-- C10: on every Weierstrass or twisted-Edwards curve, for every point
with reduced coordinates, `mul_point` with scalar `0` and with scalar `1`
both return the point itself: `bin(0)[2:] = "0"` and `bin(1)[2:] = "1"`
are single characters, so the double-and-add loop body never runs and the
first accumulator — the input point — is returned unchanged. -/
theorem C10_theorem (e : CurveEntry) (x y : ℤ) (hq : 1 < e.field)
    (hx0 : 0 ≤ x) (hx : x < e.field) (hy0 : 0 ≤ y) (hy : y < e.field) :
    (WeierstrassCurve.mul_point e 0 (x, y) = (x, y) ∧
     WeierstrassCurve.mul_point e 1 (x, y) = (x, y)) ∧
    (TwistedEdwardCurve.mul_point e 0 (x, y) = (x, y) ∧
     TwistedEdwardCurve.mul_point e 1 (x, y) = (x, y)) := by
  have hxm : x % e.field = x := Int.emod_eq_of_lt hx0 hx
  have hym : y % e.field = y := Int.emod_eq_of_lt hy0 hy
  have hW : ∀ k : ℕ, (pyBin k).drop 1 = [] →
      WeierstrassCurve.mul_point e k (x, y) = (x, y) := by
    intro k hk
    simp only [WeierstrassCurve.mul_point, hk, WeierstrassCurve.mul_loop,
      WeierstrassCurve._aff2jac]
    exact jac2aff_id x y e.field hq hx0 hx hy0 hy
  have hT : ∀ k : ℕ, (pyBin k).drop 1 = [] →
      TwistedEdwardCurve.mul_point e k (x, y) = (x, y) := by
    intro k hk
    simp only [TwistedEdwardCurve.mul_point, hk, TwistedEdwardCurve.mul_loop,
      TwistedEdwardCurve._aff2ext, mul_one, hxm, hym]
    exact ext2aff_id x y _ e.field hq hx0 hx hy0 hy
  exact ⟨⟨hW 0 rfl, hW 1 rfl⟩, ⟨hT 0 rfl, hT 1 rfl⟩⟩

/-- C10 (witness): the multiplication-by-0-and-1 identity evaluated on the
Ed25519 entry at the concrete pair `(5, 7)`. -/
theorem C10_witness :
    (WeierstrassCurve.mul_point Ed25519 0 (5, 7) = (5, 7) ∧
     WeierstrassCurve.mul_point Ed25519 1 (5, 7) = (5, 7)) ∧
    (TwistedEdwardCurve.mul_point Ed25519 0 (5, 7) = (5, 7) ∧
     TwistedEdwardCurve.mul_point Ed25519 1 (5, 7) = (5, 7)) :=
  C10_theorem Ed25519 5 7 (by decide) (by decide) (by decide) (by decide) (by decide)

/-- `Point.__neg__` at coordinate level: `Point(x, curve.field - y)`. (The
constructed point is checked; negation preserves the curve equation of all
three families, see the second conjunct of the C7 theorem.) -/
def Point_neg (e : CurveEntry) (P : ℤ × ℤ) : ℤ × ℤ :=
  (P.1, e.field - P.2)

theorem neg_sq_emod (q y : ℤ) : ((q - y) * (q - y)) % q = (y * y) % q := by
  have h : (q - y) * (q - y) = y * y + q * (q - 2 * y) := by ring
  rw [h, Int.add_mul_emod_self_left]

set_option maxRecDepth 1000000 in
/-- C7 (counterexample): the claim says `P + (-P)` encodes to the curve's
representation of the group identity. It does not: on secp256k1 with the
generator `G`, `add_point(G, -G)` runs the Jacobian addition into its
`P = -Q` singularity (`Z3 = 0`), which `_jac2aff` maps to the affine pair
`(0, 0)` — a pair that does not satisfy the curve equation, and whose
`Point` constructor silently skips the on-curve check and leaves both
coordinate attributes unset (zero coordinates are falsy). -/
theorem C7_counterexample :
    WeierstrassCurve.add_point secp256k1 (secp256k1.gx, secp256k1.gy)
        (Point_neg secp256k1 (secp256k1.gx, secp256k1.gy)) = (0, 0) ∧
    CurveEntry.is_on_curve secp256k1 0 0 = false ∧
    point_init secp256k1 (some 0) (some 0) true = PRes.ok ⟨none, none⟩ := by
  refine ⟨by decide, by decide, by decide⟩

/-- C7 (amended): for a point `(x, y)` with nonzero reduced coordinates on
any registered curve, `-(-P) = P` and negation preserves the curve
equation of each of the three families; but `P + (-P)` is not handled: the
Weierstrass addition formula collapses to the invalid affine pair `(0,0)`
(the `Z = 0` Jacobian triple), which the `Point` constructor turns into an
object with no coordinate attributes rather than any identity encoding. -/
theorem C7_theorem (e : CurveEntry) (x y : ℤ)
    (hq3 : 3 ≤ e.field) (hqodd : e.field % 2 = 1)
    (hx0 : 0 < x) (hx : x < e.field) (hy0 : 0 < y) (hy : y < e.field) :
    Point_neg e (Point_neg e (x, y)) = (x, y) ∧
    (e.is_on_curve x y = true → e.is_on_curve x (e.field - y) = true) ∧
    WeierstrassCurve.add_point e (x, y) (Point_neg e (x, y)) = (0, 0) ∧
    point_init e (some 0) (some 0) true = PRes.ok ⟨none, none⟩ := by
  set q := e.field with hqdef
  have hone : (1 : ℤ) % q = 1 := Int.emod_eq_of_lt (by omega) (by omega)
  refine ⟨?_, ?_, ?_, ?_⟩
  · simp [Point_neg]
  · intro h
    cases hct : e.ctype with
    | WEIERSTRASS =>
      simp only [CurveEntry.is_on_curve, hct, WeierstrassCurve.is_on_curve] at h ⊢
      rwa [neg_sq_emod]
    | TWISTEDEDWARD =>
      simp only [CurveEntry.is_on_curve, hct, TwistedEdwardCurve.is_on_curve] at h ⊢
      rwa [neg_sq_emod]
    | MONTGOMERY =>
      simp only [CurveEntry.is_on_curve, hct, MontgomeryCurve.is_on_curve] at h ⊢
      have hm : e.b * (q - y) * (q - y) = e.b * y * y + q * (e.b * (q - 2 * y)) := by ring
      rwa [hm, Int.add_mul_emod_self_left]
  · have hne : ((x, y) : ℤ × ℤ) ≠ (x, q - y) := by
      intro hcontra
      have : y = q - y := congrArg Prod.snd hcontra
      omega
    have hxm : x % q = x := Int.emod_eq_of_lt (by omega) (by omega)
    have hym : y % q = y := Int.emod_eq_of_lt (by omega) (by omega)
    have hqym : (q - y) % q = q - y := Int.emod_eq_of_lt (by omega) (by omega)
    have hpow0 : powMod 0 (q - 2).toNat q = 0 := by
      rw [powMod_spec, zero_pow (by omega), Int.zero_emod]
    simp only [Point_neg, WeierstrassCurve.add_point, if_neg hne,
      WeierstrassCurve._aff2jac, WeierstrassCurve._add_jac, WeierstrassCurve._jac2aff,
      mul_one, one_mul, hone, hxm, hym, hqym, sub_self, Int.zero_emod, mul_zero,
      zero_mul, sub_zero, hpow0]
  · rfl

set_option maxRecDepth 1000000 in
/-- C7 (witness): the amended statement evaluated on secp256k1 at the
generator. -/
theorem C7_witness :
    Point_neg secp256k1 (Point_neg secp256k1 (secp256k1.gx, secp256k1.gy))
        = (secp256k1.gx, secp256k1.gy) ∧
    (secp256k1.is_on_curve secp256k1.gx secp256k1.gy = true →
      secp256k1.is_on_curve secp256k1.gx (secp256k1.field - secp256k1.gy) = true) ∧
    WeierstrassCurve.add_point secp256k1 (secp256k1.gx, secp256k1.gy)
        (Point_neg secp256k1 (secp256k1.gx, secp256k1.gy)) = (0, 0) ∧
    point_init secp256k1 (some 0) (some 0) true = PRes.ok ⟨none, none⟩ :=
  C7_theorem secp256k1 secp256k1.gx secp256k1.gy (by decide) (by decide)
    (by decide) (by decide) (by decide) (by decide)

/-- C8: the claim says `Point(x, y, curve, check=True)` raises `NotOnCurve`
exactly when `(x, y)` fails the curve equation (with Montgomery absent-`y`
as the only exception). But a zero coordinate is falsy in Python, so the
constructor silently disables the check: `Point(0, 5, secp256k1)` is not
on the curve (`5² ≠ 0³ + 7 mod p`), yet construction succeeds — returning
a `Point` whose `_x` attribute is unset — instead of raising, contradicting
the constructor's own docstring. With a truthy coordinate in its place
(`Point(1, 5, secp256k1)`, also off-curve) the check does run and raises. -/
theorem C8_theorem :
    CurveEntry.is_on_curve secp256k1 0 5 = false ∧
    point_init secp256k1 (some 0) (some 5) true = PRes.ok ⟨none, some 5⟩ ∧
    point_init secp256k1 (some 1) (some 5) true = PRes.exn "ECPyException" := by
  refine ⟨by decide, by decide, by decide⟩

set_option maxRecDepth 1000000 in
/-- C4: on Ed25519 under SHA-512, for the private scalar `0x4ccd…a6fb`,
`get_public_key` reproduces the fixed public point; signing the one-byte
message `0x72` yields exactly the fixed 64-byte signature; and `verify` of
that signature against that public key returns `True` — the first fixed
vector of the eddsa module self-test (RFC 8032 test 2). -/
theorem C4_theorem :
    EDDSA.get_public_key Ed25519
        0x4ccd089b28ff96da9db6c346ec114e0f5b8a319f35aba624da8cf6ed4fb8a6fb
      = (0x74ad28205b4f384bc0813e6585864e528085f91fb6a5096f244ae01e57de43ae,
         0x0c66f42af155cdc08c96c42ecf2c989cbc7e1b4da70ab7925a8943e8c317403d) ∧
    EDDSA.sign Ed25519 [0x72]
        0x4ccd089b28ff96da9db6c346ec114e0f5b8a319f35aba624da8cf6ed4fb8a6fb
      = toBytesBE 64
          0x92a009a9f0d4cab8720e820b5f642540a2b27b5416503f8fb3762223ebdb69da085ac1e43e15996e458f3613d0f11d8c387b2eaeb4302aeeb00d291612bb0c00 ∧
    EDDSA.verify Ed25519 [0x72]
        (toBytesBE 64
          0x92a009a9f0d4cab8720e820b5f642540a2b27b5416503f8fb3762223ebdb69da085ac1e43e15996e458f3613d0f11d8c387b2eaeb4302aeeb00d291612bb0c00)
        (0x74ad28205b4f384bc0813e6585864e528085f91fb6a5096f244ae01e57de43ae,
         0x0c66f42af155cdc08c96c42ecf2c989cbc7e1b4da70ab7925a8943e8c317403d)
      = true := by
  refine ⟨?_, ?_, ?_⟩
  · simp only [EDDSA.get_public_key, TwistedEdwardCurve.ed_mul_point_fast_eq]
    decide
  · simp only [EDDSA.sign, EDDSA._do_sign, TwistedEdwardCurve.ed_mul_point_fast_eq]
    decide
  · simp only [EDDSA.verify, TwistedEdwardCurve.ed_mul_point_fast_eq]
    decide

set_option maxRecDepth 1000000 in
/-- C5: on Curve25519, `decode_scalar_25519` of the fixed 32 bytes yields
the stated clamped integer; `decode_point` of the fixed encoded point
yields the stated `x` coordinate; the Montgomery ladder
(`_mul_point_x`, the whole of `mul_point` besides wrapping the result
x-coordinate in an x-only `Point`) of that scalar and point equals the
`x` coordinate decoded from the fixed product encoding; and
`encode_point` of the product reproduces those exact bytes — the first
RFC 7748 vector of the module self-test. -/
theorem C5_theorem :
    decode_scalar_25519
        [0xa5, 0x46, 0xe3, 0x6b, 0xf0, 0x52, 0x7c, 0x9d, 0x3b, 0x16, 0x15, 0x4b,
         0x82, 0x46, 0x5e, 0xdd, 0x62, 0x14, 0x4c, 0x0a, 0xc1, 0xfc, 0x5a, 0x18,
         0x50, 0x6a, 0x22, 0x44, 0xba, 0x44, 0x9a, 0xc4]
      = some 31029842492115040904895560451863089656472772604678260265531221036453811406496 ∧
    MontgomeryCurve.decode_point Curve25519
        [0xe6, 0xdb, 0x68, 0x67, 0x58, 0x30, 0x30, 0xdb, 0x35, 0x94, 0xc1, 0xa4,
         0x24, 0xb1, 0x5f, 0x7c, 0x72, 0x66, 0x24, 0xec, 0x26, 0xb3, 0x35, 0x3b,
         0x10, 0xa9, 0x03, 0xa6, 0xd0, 0xab, 0x1c, 0x4c]
      = 34426434033919594451155107781188821651316167215306631574996226621102155684838 ∧
    MontgomeryCurve._mul_point_x Curve25519
        31029842492115040904895560451863089656472772604678260265531221036453811406496
        34426434033919594451155107781188821651316167215306631574996226621102155684838
      = MontgomeryCurve.decode_point Curve25519
          [0xc3, 0xda, 0x55, 0x37, 0x9d, 0xe9, 0xc6, 0x90, 0x8e, 0x94, 0xea, 0x4d,
           0xf2, 0x8d, 0x08, 0x4f, 0x32, 0xec, 0xcf, 0x03, 0x49, 0x1c, 0x71, 0xf7,
           0x54, 0xb4, 0x07, 0x55, 0x77, 0xa2, 0x85, 0x52] ∧
    MontgomeryCurve.encode_point Curve25519
        (MontgomeryCurve._mul_point_x Curve25519
          31029842492115040904895560451863089656472772604678260265531221036453811406496
          34426434033919594451155107781188821651316167215306631574996226621102155684838)
      = [0xc3, 0xda, 0x55, 0x37, 0x9d, 0xe9, 0xc6, 0x90, 0x8e, 0x94, 0xea, 0x4d,
         0xf2, 0x8d, 0x08, 0x4f, 0x32, 0xec, 0xcf, 0x03, 0x49, 0x1c, 0x71, 0xf7,
         0x54, 0xb4, 0x07, 0x55, 0x77, 0xa2, 0x85, 0x52] := by
  refine ⟨by decide, by decide, ?_, ?_⟩
  · rw [MontgomeryCurve._mul_point_x_fast_eq]
    decide
  · rw [MontgomeryCurve._mul_point_x_fast_eq]
    decide

theorem foldr_replicate_zero (m : ℕ) :
    List.foldr (fun x acc => x + 256 * acc) 0 (List.replicate m 0) = 0 := by
  induction m with
  | zero => rfl
  | succ n ih => simp [List.replicate_succ, ih]

theorem toBytesLE_length (len v : ℕ) : (toBytesLE len v).length = len := by
  induction len generalizing v with
  | zero => rfl
  | succ n ih => simp [toBytesLE, ih]

theorem replicate_set_form (m : ℕ) :
    ((List.replicate (m + 32) 0).set 0
        ((List.replicate (m + 32) (0 : ℕ)).getD 0 0 &&& 0xF8)).set 31
        ((((List.replicate (m + 32) (0 : ℕ)).set 0
            ((List.replicate (m + 32) (0 : ℕ)).getD 0 0 &&& 0xF8)).getD 31 0 &&& 0x7F) ||| 0x40)
      = List.replicate 31 0 ++ 0x40 :: List.replicate m 0 := by
  have h : List.replicate (m + 32) (0 : ℕ) = List.replicate 32 0 ++ List.replicate m 0 := by
    rw [← List.replicate_add]
    congr 1
    omega
  rw [h]
  simp [List.replicate_succ, List.getD]

theorem encode_scalar_ge32 (m : ℕ) (h256 : m + 32 < 2 ^ 256) :
    encode_scalar_25519 (m + 32)
      = some (List.replicate 31 0 ++ 0x40 :: List.replicate m 0) := by
  unfold encode_scalar_25519
  rw [if_pos h256, if_pos (by omega)]
  exact congrArg some (replicate_set_form m)

theorem decode_of_encode_form (m : ℕ) :
    decode_scalar_25519 (List.replicate 31 0 ++ 0x40 :: List.replicate m 0)
      = some (2 ^ 254) := by
  unfold decode_scalar_25519
  rw [if_pos (by simp)]
  simp only [List.replicate_succ, List.cons_append, List.nil_append, List.set_cons_zero,
    List.set_cons_succ, List.getD_cons_zero, List.getD_cons_succ]
  simp [fromBytesLE, foldr_replicate_zero, show (64 &&& 127 ||| 64 : ℕ) = 64 by decide]

theorem bind_some_decode (l : List ℕ) :
    (some l).bind decode_scalar_25519 = decode_scalar_25519 l := rfl

/-- C9: `encode_scalar_25519` is not an inverse of `decode_scalar_25519`:
it computes `k.to_bytes(32,'little')` but discards the result, then runs
`bytearray(k)` on the integer itself — producing `k` zero bytes — and
clamps that. For the clamped scalar `k` of the X25519 test vector, the
output differs from the 32-byte little-endian encoding of `k` (it has `k`
bytes, all zero except byte 31 = `0x40`), and decoding it back yields
`2^254`, not `k`. -/
theorem C9_theorem :
    encode_scalar_25519
        31029842492115040904895560451863089656472772604678260265531221036453811406496
      ≠ some (toBytesLE 32
          31029842492115040904895560451863089656472772604678260265531221036453811406496) ∧
    (encode_scalar_25519
        31029842492115040904895560451863089656472772604678260265531221036453811406496).bind
        decode_scalar_25519
      = some (2 ^ 254) ∧
    (encode_scalar_25519
        31029842492115040904895560451863089656472772604678260265531221036453811406496).bind
        decode_scalar_25519
      ≠ some 31029842492115040904895560451863089656472772604678260265531221036453811406496 := by
  have henc := encode_scalar_ge32
    (31029842492115040904895560451863089656472772604678260265531221036453811406496 - 32)
    (by norm_num)
  norm_num at henc
  refine ⟨?_, ?_, ?_⟩
  · intro h
    have h2 := henc.symm.trans h
    have hlen := congrArg List.length (Option.some.inj h2)
    have e1 : (List.replicate 31 (0 : ℕ) ++ 0x40 ::
        List.replicate
          31029842492115040904895560451863089656472772604678260265531221036453811406464
          0).length
        = 31 + (31029842492115040904895560451863089656472772604678260265531221036453811406464
            + 1) := by
      rw [List.length_append, List.length_cons, List.length_replicate, List.length_replicate]
    have e2 := toBytesLE_length 32
      31029842492115040904895560451863089656472772604678260265531221036453811406496
    have hlen2 := e1.symm.trans (hlen.trans e2)
    exact absurd hlen2 (Nat.ne_of_beq_eq_false rfl)
  · rw [henc, bind_some_decode]
    exact decode_of_encode_form _
  · rw [henc, bind_some_decode, decode_of_encode_form]
    intro h
    have h2 := Option.some.inj h
    exact absurd h2 (Nat.ne_of_beq_eq_false rfl)

theorem toBytesBE_length (len v : ℕ) : (toBytesBE len v).length = len := by
  induction len generalizing v with
  | zero => rfl
  | succ n ih => simp [toBytesBE, ih]

theorem fromBytesBE_append_single (l : List ℕ) (b : ℕ) :
    fromBytesBE (l ++ [b]) = 256 * fromBytesBE l + b := by
  simp [fromBytesBE, List.foldl_append]
  ring

theorem fromBytesBE_toBytesBE (len v : ℕ) (h : v < 256 ^ len) :
    fromBytesBE (toBytesBE len v) = v := by
  induction len generalizing v with
  | zero =>
    simp [fromBytesBE, toBytesBE]
    omega
  | succ n ih =>
    rw [toBytesBE, fromBytesBE_append_single, ih (v / 256) ?bound]
    · omega
    case bound =>
      rw [pow_succ] at h
      omega

theorem lt_two_pow_bitsLEAux : ∀ fuel n, n ≤ fuel → n < 2 ^ (bitsLEAux fuel n).length := by
  intro fuel
  induction fuel with
  | zero => intro n h; interval_cases n; simp [bitsLEAux]
  | succ f ih =>
    intro n h
    match n with
    | 0 => simp [bitsLEAux]
    | m + 1 =>
      rw [bitsLEAux]
      simp only [List.length_cons]
      have hd : (m + 1) / 2 ≤ f := by omega
      have := ih ((m + 1) / 2) hd
      rw [pow_succ]
      omega

theorem lt_two_pow_bit_length (n : ℕ) : n < 2 ^ bit_length n :=
  lt_two_pow_bitsLEAux n n le_rfl

theorem lt_pow_byte_len (v : ℕ) : v < 256 ^ ((bit_length v + 7) / 8) := by
  have h1 : v < 2 ^ bit_length v := lt_two_pow_bit_length v
  have h2 : 2 ^ bit_length v ≤ 2 ^ (8 * ((bit_length v + 7) / 8)) := by
    apply Nat.pow_le_pow_right (by omega)
    omega
  calc v < 2 ^ bit_length v := h1
    _ ≤ 2 ^ (8 * ((bit_length v + 7) / 8)) := h2
    _ = 256 ^ ((bit_length v + 7) / 8) := by
        rw [show (256 : ℕ) = 2 ^ 8 from rfl, ← pow_mul]

theorem fromBytesBE_derIntBytes (v : ℕ) : fromBytesBE (derIntBytes v) = v := by
  unfold derIntBytes
  have h := fromBytesBE_toBytesBE _ v (lt_pow_byte_len v)
  split
  · show fromBytesBE (0 :: _) = v
    rw [show ∀ l : List ℕ, fromBytesBE (0 :: l) = fromBytesBE l from fun l => rfl]
    exact h
  · exact h

theorem bit_length_pos (v : ℕ) (hv : 1 ≤ v) : 1 ≤ bit_length v := by
  unfold bit_length
  match v, hv with
  | m + 1, _ => rw [bitsLEAux]; simp

theorem derIntBytes_length_pos (v : ℕ) (hv : 1 ≤ v) : 1 ≤ (derIntBytes v).length := by
  unfold derIntBytes
  have := bit_length_pos v hv
  split
  · simp
  · rw [toBytesBE_length]
    omega

theorem getD_cons_succ' (a d : ℕ) (l : List ℕ) (n : ℕ) :
    (a :: l).getD (n + 1) d = l.getD n d := rfl

/-- Shape of `decode_sig_DER` on a well-formed DER layout with an arbitrary
leading tag: the validation reduces to the tag test. -/
theorem decode_structure (t : ℕ) (rb sb : List ℕ)
    (hrb : 1 ≤ rb.length) (hsb : 1 ≤ sb.length) :
    decode_sig_DER (t :: (rb.length + sb.length + 4) :: 0x02 :: rb.length :: rb
        ++ 0x02 :: sb.length :: sb)
      = if t = 0x30 then some (some (fromBytesBE rb, fromBytesBE sb)) else some none := by
  simp only [List.cons_append]
  set L := rb ++ 0x02 :: sb.length :: sb with hL
  set sig := t :: (rb.length + sb.length + 4) :: 0x02 :: rb.length :: L with hsig
  have hget1 : sig[1]? = some (rb.length + sb.length + 4) := by
    rw [hsig, List.getElem?_cons_succ, List.getElem?_cons_zero]
  have hget3 : sig[3]? = some rb.length := by
    rw [hsig, List.getElem?_cons_succ, List.getElem?_cons_succ,
      List.getElem?_cons_succ, List.getElem?_cons_zero]
  have hget5 : sig[4 + rb.length + 1]? = some sb.length := by
    rw [hsig, show 4 + rb.length + 1 = rb.length + 1 + 1 + 1 + 1 + 1 from by omega,
      List.getElem?_cons_succ, List.getElem?_cons_succ, List.getElem?_cons_succ,
      List.getElem?_cons_succ, hL,
      List.getElem?_append_right (by omega),
      show rb.length + 1 - rb.length = 1 from by omega,
      List.getElem?_cons_succ, List.getElem?_cons_zero]
  have hgd0 : sig.getD 0 0 = t := rfl
  have hgd2 : sig.getD (4 - 2) 0 = 0x02 := rfl
  have hgd4 : sig.getD (4 + rb.length + 2 - 2) 0 = 0x02 := by
    rw [show 4 + rb.length + 2 - 2 = rb.length + 1 + 1 + 1 + 1 from by omega, hsig,
      getD_cons_succ', getD_cons_succ', getD_cons_succ', getD_cons_succ',
      List.getD_eq_getElem?_getD, hL, List.getElem?_append_right (by omega),
      Nat.sub_self, List.getElem?_cons_zero]
    rfl
  have hsliceR : pySlice sig 4 (4 + rb.length) = rb := by
    rw [pySlice, hsig, show 4 + rb.length - 4 = rb.length from by omega]
    show L.take rb.length = rb
    rw [hL, List.take_left]
  have hsliceS : pySlice sig (4 + rb.length + 2) (4 + rb.length + 2 + sb.length) = sb := by
    rw [pySlice, show 4 + rb.length + 2 + sb.length - (4 + rb.length + 2) = sb.length
      from by omega]
    have hdrop : sig.drop (4 + rb.length + 2) = sb := by
      rw [hsig, show 4 + rb.length + 2 = rb.length + 2 + 1 + 1 + 1 + 1 from by omega]
      show L.drop (rb.length + 2) = sb
      rw [hL, List.drop_append]
      rfl
    rw [hdrop]
    exact List.take_length sb
  rw [decode_sig_DER]
  simp only [hget1, hget3, hget5, hgd0, hgd2, hgd4, hsliceR, hsliceS]
  by_cases ht : t = 0x30
  · rw [if_neg, if_pos ht]
    push_neg
    refine ⟨by omega, by omega, by omega, by omega⟩
  · rw [if_pos, if_neg ht]
    left
    omega

/-- C6 (counterexample): the claim says a wrong leading tag makes
`decode_sig` return the absent pair rather than fault. But `decode_sig`
reads `sig[1]` before any validation, so the one-byte wrong-tag input
`b"\x31"` raises `IndexError` instead of returning `(None, None)`. -/
theorem C6_counterexample :
    ([0x31] : List ℕ).getD 0 0 ≠ 0x30 ∧ decode_sig_DER [0x31] = none :=
  ⟨by decide, by decide⟩

/-- C6 (amended): for every `r, s ≥ 1` below `2^528` (which covers
`[1, n-1]` for every registered order, and keeps both DER lengths single
bytes), `decode_sig(encode_sig(r,s,"DER"),"DER") = (r,s)`; and a wrong
leading tag yields the absent pair `(None, None)` for inputs long enough
for the four offsets the decoder inspects — in particular for any
tag-corrupted valid encoding. (A too-short wrong-tag input instead faults
with `IndexError`, see the counterexample.) -/
theorem C6_theorem (r s : ℕ) (hr1 : 1 ≤ r) (hr2 : r < 2 ^ 528)
    (hs1 : 1 ≤ s) (hs2 : s < 2 ^ 528) :
    decode_sig_DER (encode_sig_DER r s) = some (some (r, s)) ∧
    (∀ t, t ≠ 0x30 → decode_sig_DER (t :: (encode_sig_DER r s).tail) = some none) := by
  have hrb := derIntBytes_length_pos r hr1
  have hsb := derIntBytes_length_pos s hs1
  constructor
  · show decode_sig_DER (0x30 :: ((derIntBytes r).length + (derIntBytes s).length + 4)
        :: 0x02 :: (derIntBytes r).length :: derIntBytes r
        ++ 0x02 :: (derIntBytes s).length :: derIntBytes s) = some (some (r, s))
    rw [decode_structure 0x30 _ _ hrb hsb, if_pos rfl,
      fromBytesBE_derIntBytes, fromBytesBE_derIntBytes]
  · intro t ht
    have htail : (encode_sig_DER r s).tail
        = ((derIntBytes r).length + (derIntBytes s).length + 4)
          :: 0x02 :: (derIntBytes r).length :: derIntBytes r
          ++ 0x02 :: (derIntBytes s).length :: derIntBytes s := by
      show (((0x30 :: ((derIntBytes r).length + (derIntBytes s).length + 4)
        :: 0x02 :: (derIntBytes r).length :: derIntBytes r)
        ++ 0x02 :: (derIntBytes s).length :: derIntBytes s)).tail = _
      rw [List.cons_append, List.tail_cons]
    rw [htail]
    show decode_sig_DER (t :: ((derIntBytes r).length + (derIntBytes s).length + 4)
        :: 0x02 :: (derIntBytes r).length :: derIntBytes r
        ++ 0x02 :: (derIntBytes s).length :: derIntBytes s) = some none
    rw [decode_structure t _ _ hrb hsb, if_neg ht]

set_option maxRecDepth 10000 in
/-- C6 (witness): the round trip and the tag-flip behaviour at the
concrete pair `(r, s) = (2, 3)` and corrupted tag `0x31`. -/
theorem C6_witness :
    decode_sig_DER (encode_sig_DER 2 3) = some (some (2, 3)) ∧
    decode_sig_DER (0x31 :: (encode_sig_DER 2 3).tail) = some none :=
  ⟨(C6_theorem 2 3 (by decide) (by decide) (by decide) (by decide)).1,
   (C6_theorem 2 3 (by decide) (by decide) (by decide) (by decide)).2 0x31 (by decide)⟩
